import Mathlib

/-!
# printipi: the G-code interpreter `gparse::State` (code/firmware/src/gparse/state.h)

A shallow embedding of `State::execute` and `State::queueMovement`, followed by
`IntervalTimer::clockCmp` (code/firmware/src/intervaltimer.h) and the logging flags of
src/common/logging.h.

* The C++ `float` type is kept abstract: the development is parametric in a type `F`
  and in a record `FloatOps` that interprets every arithmetic operation and comparison the
  source performs.  Nothing is assumed about these operations unless a theorem says so, so the
  general theorems hold for IEEE arithmetic (NaN included) as for exact arithmetic.
* `command.h`, `event.h`, `scheduler.h`, `drivers/driver.h` and `state.cpp` are not among the
  sources.  What the header uses from them is either a parameter (`UnitConv`, `Driver`, the
  direction type `D`) or a small definition marked as modelled from the specification.
* The driver is external hardware: its answers may change from one query to the next, so it is
  modelled by functions over an explicit driver state `S`.
* The `do ... while` loop of `queueMovement` need not terminate; it is run with a fuel bound and
  returns `none` when the fuel is exhausted.
-/

namespace gparse

/-- Positioning mode, `enum PositionMode` of state.h. -/
inductive PositionMode where
  | POS_ABSOLUTE
  | POS_RELATIVE
deriving DecidableEq, Repr

/-- Length unit, `enum LengthUnit` of state.h. -/
inductive LengthUnit where
  | UNIT_MM
  | UNIT_IN
deriving DecidableEq, Repr

/-- Interpretation of the `float` operations used by state.h, together with the two facts
about the enumeration `StepDirection` (declared in the absent event.h) that the code relies on:
the implicit conversion of a direction to `float` (line 155) and the value-initialised direction
stored in a freshly allocated `std::pair<float, StepDirection>` (line 143). -/
structure FloatOps (F D : Type) where
  /-- The literal `0.0f` stored in a value-initialised pair. -/
  zero : F
  add : F → F → F
  sub : F → F → F
  mul : F → F → F
  div : F → F → F
  sqrt : F → F
  abs : F → F
  /-- The comparison `a < b`. -/
  lt : F → F → Bool
  /-- Implicit conversion `StepDirection → float`. -/
  ofDir : D → F
  /-- The direction `StepDirection()` whose enumeration value is 0. -/
  dirInit : D

/-- The library function `std::min(a, b)`, which returns `b` when `b < a` and `a` otherwise. -/
def FloatOps.min {F D : Type} (ops : FloatOps F D) (a b : F) : F :=
  if ops.lt b a then b else a

/-- Modelled from the spec: event.h is not among the sources. A StepEvent is "a relative-time
offset, an axis index and a step direction"; `Event::StepperEvent(t, axis, dir)` builds one from
its three arguments. -/
structure Event (F D : Type) where
  time : F
  axis : Nat
  dir : D
deriving DecidableEq, Repr

/-- Modelled from the spec: scheduler.h is not among the sources. The scheduler queue is "an
ordered sequence of StepEvent", written by appending. -/
abbrev Scheduler (F D : Type) := List (Event F D)

/-- Modelled from the spec: `Scheduler::queue` appends the event at the back of the queue. -/
def Scheduler.queue {F D : Type} (s : Scheduler F D) (ev : Event F D) : Scheduler F D :=
  s ++ [ev]

/-- The data members of `class State` (state.h lines 31-40). -/
structure State (F D : Type) where
  positionMode : PositionMode
  unitMode : LengthUnit
  scheduler : Scheduler F D
  _destXPrimitive : F
  _destYPrimitive : F
  _destZPrimitive : F
  _destEPrimitive : F
  _destMoveRatePrimitive : F
  _destFeedRatePrimitive : F
deriving DecidableEq, Repr

namespace State

variable {F D : Type}

/-- Modelled from the spec: state.cpp is not among the sources; the setter stores its argument
in `positionMode` ("mode ← absolute / relative"). -/
def setPositionMode (st : State F D) (mode : PositionMode) : State F D :=
  { st with positionMode := mode }

/-- Modelled from the spec: state.cpp is not among the sources; the setter stores its argument
in `unitMode` ("mode ← inch / mm"). -/
def setUnitMode (st : State F D) (mode : LengthUnit) : State F D :=
  { st with unitMode := mode }

/-- Modelled from the spec: state.cpp is not among the sources; the accessor reads the last
commanded X destination. -/
def destXPrimitive (st : State F D) : F := st._destXPrimitive

/-- Modelled from the spec: accessor of the last commanded Y destination. -/
def destYPrimitive (st : State F D) : F := st._destYPrimitive

/-- Modelled from the spec: accessor of the last commanded Z destination. -/
def destZPrimitive (st : State F D) : F := st._destZPrimitive

/-- Modelled from the spec: accessor of the last commanded E destination. -/
def destEPrimitive (st : State F D) : F := st._destEPrimitive

/-- Modelled from the spec: accessor of the last commanded move rate. -/
def destMoveRatePrimitive (st : State F D) : F := st._destMoveRatePrimitive

/-- Modelled from the spec: accessor of the last commanded feed rate. -/
def destFeedRatePrimitive (st : State F D) : F := st._destFeedRatePrimitive

/-- Modelled from the spec: state.cpp is not among the sources; the setter stores the feed
rate. -/
def setDestFeedRatePrimitive (st : State F D) (f : F) : State F D :=
  { st with _destFeedRatePrimitive := f }

end State

/-- The unit conversions `xUnitToPrimitive` ... `fUnitToPrimitive`, `const` member functions of
`State` that are declared in state.h and defined in the absent state.cpp. They are parameters:
each may read the whole state. -/
structure UnitConv (F D : Type) where
  xUnitToPrimitive : State F D → F → F
  yUnitToPrimitive : State F D → F → F
  zUnitToPrimitive : State F D → F → F
  fUnitToPrimitive : State F D → F → F

/-- Modelled from the spec: command.h is not among the sources. A command is "an opcode plus an
optional set of named numeric parameters (X, Y, Z, E, F), each with a presence flag". Each
getter `getX(bool &has)` yields the value it returns and the flag it stores in `has`. -/
structure Command (F : Type) where
  getOpcode : String
  getX : F × Bool
  getY : F × Bool
  getZ : F × Bool
  getE : F × Bool
  getF : F × Bool
deriving DecidableEq, Repr

/-- Modelled from the spec: command.h is not among the sources. The three ways `execute` builds
its reply: the default-constructed `Command resp;`, the sentinel `Command::OK`, and
`Command(text)` built from a line of text. -/
inductive Response where
  | empty
  | OK
  | text (line : String)
deriving DecidableEq, Repr

/-- What a call of `execute` ends with: a thrown `std::string` or a returned reply. -/
inductive Outcome where
  | threw (what : String)
  | returned (resp : Response)
deriving DecidableEq, Repr

/-- The driver capability surface (drivers/driver.h is not among the sources): the three member
functions that state.h calls. `relativeTimeOfNextStep` receives the axis, the direction slot
`times[i].second` (passed by reference, hence returned as well) and the eight floats of the
call; `getTemperature(t, b)` receives the two `int` references and returns their final
values. -/
structure Driver (F D S : Type) where
  numAxis : Nat
  relativeTimeOfNextStep : S → Nat → D → F → F → F → F → F → F → F → F → (F × D) × S
  getTemperature : S → Int → Int → (Int × Int) × S

/-- Line 43: the hotend reading that means "no reading available". -/
def DEFAULT_HOTEND_TEMP : Int := -300

/-- Line 44: the bed reading that means "no reading available". -/
def DEFAULT_BED_TEMP : Int := -300

/-- Lines 45-52: the opcode constants; their values are those the header gives in the comment
next to each declaration. -/
def OP_G1 : String := "G1"
def OP_G20 : String := "G20"
def OP_G21 : String := "G21"
def OP_G90 : String := "G90"
def OP_G91 : String := "G91"
def OP_M21 : String := "M21"
def OP_M105 : String := "M105"
def OP_M110 : String := "M110"

/-- The library function `std::to_string(int)`: the decimal rendering, with a leading minus sign
for negative values. -/
def to_string (n : Int) : String := toString n

section queueMovement

variable {F D S : Type}

/-- The state of the `do ... while` loop of `queueMovement`: the array `times`, the variable
`minIdx`, the scheduler of the enclosing `State` and the state of the driver. -/
structure LoopState (F D S : Type) where
  times : List (F × D)
  minIdx : Nat
  scheduler : Scheduler F D
  drvState : S
deriving DecidableEq, Repr

/-- Element `times[i]` of the array. -/
def timesAt (ops : FloatOps F D) (times : List (F × D)) (i : Nat) : F × D :=
  times.getD i (ops.zero, ops.dirInit)

/-- Lines 143-146: allocate `times` and fill it with one query per axis, in index order. -/
def initTimes (ops : FloatOps F D) (drv : Driver F D S) (ds : S)
    (curX curY curZ curE vx vy vz velE : F) : List (F × D) × S :=
  (List.range drv.numAxis).foldl
    (fun (acc : List (F × D) × S) (i : Nat) =>
      let r := drv.relativeTimeOfNextStep acc.2 i (timesAt ops acc.1 i).2
                 curX curY curZ curE vx vy vz velE
      (acc.1.set i r.1, r.2))
    (List.replicate drv.numAxis (ops.zero, ops.dirInit), ds)

/-- Lines 150-154: the scan `for (int i=1; i<numAxis; ++i)` that lowers `minIdx` to `i`
whenever `times[i].first < times[minIdx].first`. It starts from the value `minIdx` already
has. -/
def selectMin (ops : FloatOps F D) (times : List (F × D)) (numAxis : Nat) (minIdx : Nat) : Nat :=
  ((List.range numAxis).drop 1).foldl
    (fun (m : Nat) (i : Nat) =>
      if ops.lt (timesAt ops times i).1 (timesAt ops times m).1 then i else m)
    minIdx

/-- Lines 150-164: one pass through the body of the `do ... while` loop. -/
def loopBody (ops : FloatOps F D) (drv : Driver F D S)
    (curX curY curZ curE vx vy vz velE duration durationE : F)
    (s : LoopState F D S) : LoopState F D S :=
  let minIdx := selectMin ops s.times drv.numAxis s.minIdx
  let t := ops.ofDir (timesAt ops s.times minIdx).2
  let scheduler := s.scheduler.queue ⟨t, minIdx, (timesAt ops s.times minIdx).2⟩
  let txyz := ops.min t duration
  let te := ops.min t durationE
  let _tempX := ops.add curX (ops.mul txyz vx)
  let _tempY := ops.add curY (ops.mul txyz vy)
  let _tempZ := ops.add curZ (ops.mul txyz vz)
  let _tempE := ops.add curE (ops.mul te velE)
  let r := drv.relativeTimeOfNextStep s.drvState minIdx (timesAt ops s.times minIdx).2
             curX curY curZ curE vx vy vz velE
  { times := s.times.set minIdx r.1, minIdx := minIdx, scheduler := scheduler, drvState := r.2 }

/-- Line 165: the loop condition `times[minIdx].first < duration`. -/
def loopCond (ops : FloatOps F D) (duration : F) (s : LoopState F D S) : Bool :=
  ops.lt (timesAt ops s.times s.minIdx).1 duration

/-- Lines 149-165: the `do ... while` loop, run for at most `fuel` passes; `none` when the
fuel runs out before the condition fails. -/
def doWhile (ops : FloatOps F D) (drv : Driver F D S)
    (curX curY curZ curE vx vy vz velE duration durationE : F) :
    Nat → LoopState F D S → Option (LoopState F D S)
  | 0, _ => none
  | fuel + 1, s =>
    let s1 := loopBody ops drv curX curY curZ curE vx vy vz velE duration durationE s
    if loopCond ops duration s1 then
      doWhile ops drv curX curY curZ curE vx vy vz velE duration durationE fuel s1
    else some s1

/-- The member function `State::queueMovement` (lines 127-166). Of the enclosing `State` it
touches the scheduler only, so it maps the scheduler and the driver state to their values
after the call. -/
def queueMovement (ops : FloatOps F D) (drv : Driver F D S) (fuel : Nat)
    (scheduler : Scheduler F D) (ds : S)
    (curX curY curZ curE x y z e velXYZ velE : F) : Option (Scheduler F D × S) :=
  let distSq := ops.add (ops.add (ops.mul (ops.sub x curX) (ops.sub x curX))
                                 (ops.mul (ops.sub y curY) (ops.sub y curY)))
                        (ops.mul (ops.sub z curZ) (ops.sub z curZ))
  let dist := ops.sqrt distSq
  let vx := ops.mul (ops.div (ops.sub x curX) dist) velXYZ
  let vy := ops.mul (ops.div (ops.sub y curY) dist) velXYZ
  let vz := ops.mul (ops.div (ops.sub z curZ) dist) velXYZ
  let durationXYZ := ops.div dist velXYZ
  let durationE := ops.div (ops.abs (ops.sub e curE)) velE
  let duration := ops.min durationXYZ durationE
  if drv.numAxis = 0 then some (scheduler, ds)
  else
    let init := initTimes ops drv ds curX curY curZ curE vx vy vz velE
    (doWhile ops drv curX curY curZ curE vx vy vz velE duration durationE fuel
        { times := init.1, minIdx := 0, scheduler := scheduler, drvState := init.2 }).map
      (fun s => (s.scheduler, s.drvState))

/-- The local variable `dist` of `queueMovement` (lines 129-130). -/
def distOf (ops : FloatOps F D) (curX curY curZ x y z : F) : F :=
  ops.sqrt (ops.add (ops.add (ops.mul (ops.sub x curX) (ops.sub x curX))
                             (ops.mul (ops.sub y curY) (ops.sub y curY)))
                    (ops.mul (ops.sub z curZ) (ops.sub z curZ)))

/-- The local variables `vx`, `vy`, `vz` of `queueMovement` (lines 131-133), for the target
coordinate `a` and the start coordinate `cur` of the axis. -/
def velOf (ops : FloatOps F D) (a cur dist velXYZ : F) : F :=
  ops.mul (ops.div (ops.sub a cur) dist) velXYZ

/-- The local variable `durationE` of `queueMovement` (line 135). -/
def durationEOf (ops : FloatOps F D) (curE e velE : F) : F :=
  ops.div (ops.abs (ops.sub e curE)) velE

/-- The local variable `duration` of `queueMovement` (lines 134-136). -/
def durationOf (ops : FloatOps F D) (dist curE e velXYZ velE : F) : F :=
  ops.min (ops.div dist velXYZ) (durationEOf ops curE e velE)

/-- Lines 143-148: the state in which the `do ... while` loop of `queueMovement` is entered:
the array `times` as the initial queries filled it, `minIdx = 0`, the scheduler and the driver
as they are at that point. -/
def loopEntry (ops : FloatOps F D) (drv : Driver F D S) (scheduler : Scheduler F D) (ds : S)
    (curX curY curZ curE vx vy vz velE : F) : LoopState F D S :=
  { times := (initTimes ops drv ds curX curY curZ curE vx vy vz velE).1
    minIdx := 0
    scheduler := scheduler
    drvState := (initTimes ops drv ds curX curY curZ curE vx vy vz velE).2 }

end queueMovement

section execute

variable {F D S : Type}

/-- The member function `State::execute` (lines 79-125). The result is the outcome of the
call (reply or thrown string), the state of the machine and the state of the driver after it;
`none` when the loop of `queueMovement` exhausts the fuel. -/
def execute (cv : UnitConv F D) (ops : FloatOps F D) (drv : Driver F D S) (fuel : Nat)
    (st : State F D) (ds : S) (cmd : Command F) : Option (Outcome × State F D × S) :=
  let opcode := cmd.getOpcode
  let resp := Response.empty
  if opcode = OP_G1 then
    let curX := st.destXPrimitive
    let curY := st.destYPrimitive
    let curZ := st.destZPrimitive
    let curE := st.destEPrimitive
    let x := if cmd.getX.2 then cv.xUnitToPrimitive st cmd.getX.1 else curX
    let y := if cmd.getY.2 then cv.yUnitToPrimitive st cmd.getY.1 else curY
    let z := if cmd.getZ.2 then cv.zUnitToPrimitive st cmd.getZ.1 else curZ
    let e := cmd.getE.1
    let st1 := if cmd.getF.2 then st.setDestFeedRatePrimitive (cv.fUnitToPrimitive st cmd.getF.1)
               else st
    (queueMovement ops drv fuel st1.scheduler ds curX curY curZ curE x y z e
        st1.destMoveRatePrimitive st1.destFeedRatePrimitive).map
      (fun r => (Outcome.returned resp, { st1 with scheduler := r.1 }, r.2))
  else if opcode = OP_G20 then
    some (Outcome.returned Response.OK, st.setUnitMode LengthUnit.UNIT_IN, ds)
  else if opcode = OP_G21 then
    some (Outcome.returned Response.OK, st.setUnitMode LengthUnit.UNIT_MM, ds)
  else if opcode = OP_G90 then
    some (Outcome.returned Response.OK, st.setPositionMode PositionMode.POS_ABSOLUTE, ds)
  else if opcode = OP_G91 then
    some (Outcome.returned Response.OK, st.setPositionMode PositionMode.POS_RELATIVE, ds)
  else if opcode = OP_M21 then
    some (Outcome.returned Response.OK, st, ds)
  else if opcode = OP_M105 then
    let r := drv.getTemperature ds DEFAULT_HOTEND_TEMP DEFAULT_BED_TEMP
    some (Outcome.returned
            (Response.text ("ok T:" ++ to_string r.1.1 ++ " B:" ++ to_string r.1.2)), st, r.2)
  else if opcode = OP_M110 then
    some (Outcome.returned Response.OK, st, ds)
  else
    some (Outcome.threw "unrecognized gcode opcode", st, ds)

end execute

section instances

/-- Modelled from the spec: event.h is not among the sources; a step direction is
"forward | backward". -/
inductive StepDirection where
  | StepBackward
  | StepForward
deriving DecidableEq, Repr

/-- Integer square root by search; exact on perfect squares. -/
def intSqrt (n : Int) : Int :=
  Int.ofNat (((List.range (n.toNat + 1)).filter (fun k => k * k ≤ n.toNat)).length - 1)

/-- An executable instance of the arithmetic, used to run the code on concrete inputs: the
floats are integers. It agrees with IEEE arithmetic on every input whose intermediate values
are small integers with exact quotients and square roots and non-zero divisors, which is the
case for all inputs used below. Directions are numbered `StepBackward = 0`,
`StepForward = 1`. -/
def intOps : FloatOps Int StepDirection where
  zero := 0
  add := fun a b => a + b
  sub := fun a b => a - b
  mul := fun a b => a * b
  div := fun a b => a / b
  sqrt := intSqrt
  abs := fun a => Int.ofNat a.natAbs
  lt := fun a b => decide (a < b)
  ofDir := fun d => match d with
    | StepDirection.StepBackward => 0
    | StepDirection.StepForward => 1
  dirInit := StepDirection.StepBackward

/-- The same arithmetic with the other numbering of the directions: `StepForward = 0`,
`StepBackward = 1`. -/
def intOpsFwdFirst : FloatOps Int StepDirection :=
  { intOps with
    ofDir := fun d => match d with
      | StepDirection.StepForward => 0
      | StepDirection.StepBackward => 1
    dirInit := StepDirection.StepForward }

/-- Unit conversions of a machine whose primitive unit is the unit of the command: every
conversion returns the supplied value. -/
def idConv : UnitConv Int StepDirection where
  xUnitToPrimitive := fun _ v => v
  yUnitToPrimitive := fun _ v => v
  zUnitToPrimitive := fun _ v => v
  fUnitToPrimitive := fun _ v => v

/-- A machine at the origin, millimetres, absolute positioning, empty queue, move rate 1 and
feed rate 1. -/
def originState : State Int StepDirection :=
  { positionMode := PositionMode.POS_ABSOLUTE, unitMode := LengthUnit.UNIT_MM, scheduler := [],
    _destXPrimitive := 0, _destYPrimitive := 0, _destZPrimitive := 0, _destEPrimitive := 0,
    _destMoveRatePrimitive := 1, _destFeedRatePrimitive := 1 }

/-- A command that carries the opcode alone. -/
def bareCommand (opcode : String) : Command Int :=
  { getOpcode := opcode, getX := (0, false), getY := (0, false), getZ := (0, false),
    getE := (0, false), getF := (0, false) }

/-- The command `G1 X5 E5`. -/
def cmdG1X5E5 : Command Int :=
  { getOpcode := "G1", getX := (5, true), getY := (0, false), getZ := (0, false),
    getE := (5, true), getF := (0, false) }

/-- The command `G1 X5 E4 F2`. -/
def cmdG1X5E4F2 : Command Int :=
  { getOpcode := "G1", getX := (5, true), getY := (0, false), getZ := (0, false),
    getE := (4, true), getF := (2, true) }

/-- A one-axis driver without state whose next step is always 100 time units away, forward;
it reports hotend 205 and bed 60. -/
def drvLate : Driver Int StepDirection Unit where
  numAxis := 1
  relativeTimeOfNextStep := fun _ _ _ _ _ _ _ _ _ _ _ => ((100, StepDirection.StepForward), ())
  getTemperature := fun _ _ _ => ((205, 60), ())

/-- A two-axis driver whose state counts the queries. Axis 0 always answers 2; axis 1 answers
1 when the array is initialised (queries 0 and 1), then 3, then 100. It writes the hotend
reading 205 and leaves the bed reading untouched. -/
def drvTwoAxis : Driver Int StepDirection Nat where
  numAxis := 2
  relativeTimeOfNextStep := fun n axis _ _ _ _ _ _ _ _ _ =>
    ((if axis = 0 then 2 else if n ≤ 1 then 1 else if n = 2 then 3 else 100,
      StepDirection.StepForward), n + 1)
  getTemperature := fun n _ b => ((205, b), n)

/-- A one-axis driver whose state counts the queries and whose step times never decrease:
1, then 2, then 100. The directions it reports are `first`, then `second` from then on. -/
def drvOneAxis (first second : StepDirection) : Driver Int StepDirection Nat where
  numAxis := 1
  relativeTimeOfNextStep := fun n _ _ _ _ _ _ _ _ _ _ =>
    (if n = 0 then (1, first) else if n = 1 then (2, second) else (100, second), n + 1)
  getTemperature := fun n t b => ((t, b), n)

/-- The loop state of `queueMovement` on `drvTwoAxis` for the move from the origin to
X = 5, E = 5 at unit rates, when the loop is entered. -/
def twoAxisStart : LoopState Int StepDirection Nat :=
  { times := (initTimes intOps drvTwoAxis 0 0 0 0 0 1 0 0 1).1, minIdx := 0, scheduler := [],
    drvState := (initTimes intOps drvTwoAxis 0 0 0 0 0 1 0 0 1).2 }

/-- One pass of the loop of that call: velocity components (1, 0, 0), both durations 5. -/
def twoAxisPass (s : LoopState Int StepDirection Nat) : LoopState Int StepDirection Nat :=
  loopBody intOps drvTwoAxis 0 0 0 0 1 0 0 1 5 5 s

/-- A driver without axes and without state. -/
def drvNoAxis : Driver Int StepDirection Unit where
  numAxis := 0
  relativeTimeOfNextStep := fun _ _ _ _ _ _ _ _ _ _ _ => ((1, StepDirection.StepForward), ())
  getTemperature := fun _ t b => ((t, b), ())

/-- A one-axis driver without state that answers the same positive step time 1, forward,
to every query: a function of its arguments. -/
def drvSteady : Driver Int StepDirection Unit where
  numAxis := 1
  relativeTimeOfNextStep := fun _ _ _ _ _ _ _ _ _ _ _ => ((1, StepDirection.StepForward), ())
  getTemperature := fun _ t b => ((t, b), ())

/-- The values of IEEE arithmetic that the runs through a division by zero need: NaN, the two
infinities and the integers. -/
inductive Ext where
  | nan
  | negInf
  | fin (v : Int)
  | posInf
deriving DecidableEq, Repr

namespace Ext

/-- Sign of a value: -1, 0 or 1 (0 for NaN). -/
def sign : Ext → Int
  | nan => 0
  | negInf => -1
  | fin v => Int.sign v
  | posInf => 1

/-- Negation. -/
def neg : Ext → Ext
  | nan => nan
  | negInf => posInf
  | fin v => fin (-v)
  | posInf => negInf

/-- Addition: NaN is absorbing and the sum of opposite infinities is NaN. -/
def add : Ext → Ext → Ext
  | nan, _ => nan
  | _, nan => nan
  | fin a, fin b => fin (a + b)
  | posInf, negInf => nan
  | negInf, posInf => nan
  | posInf, _ => posInf
  | _, posInf => posInf
  | negInf, _ => negInf
  | _, negInf => negInf

/-- Multiplication: NaN is absorbing and zero times an infinity is NaN. -/
def mul : Ext → Ext → Ext
  | nan, _ => nan
  | _, nan => nan
  | fin a, fin b => fin (a * b)
  | x, y =>
    if x.sign * y.sign = 0 then nan else if 0 < x.sign * y.sign then posInf else negInf

/-- Division: 0/0 and infinity/infinity are NaN, a non-zero value over zero is an infinity of
its sign, a finite value over an infinity is zero. -/
def div : Ext → Ext → Ext
  | nan, _ => nan
  | _, nan => nan
  | fin a, fin b =>
    if b = 0 then (if a = 0 then nan else if 0 < a then posInf else negInf) else fin (a / b)
  | fin _, _ => fin 0
  | x, fin b => if 0 ≤ b then x else x.neg
  | _, _ => nan

/-- Square root: NaN below zero. -/
def sqrt : Ext → Ext
  | nan => nan
  | negInf => nan
  | fin v => if v < 0 then nan else fin (intSqrt v)
  | posInf => posInf

/-- Absolute value. -/
def abs : Ext → Ext
  | nan => nan
  | fin v => fin (Int.ofNat v.natAbs)
  | _ => posInf

/-- The comparison `a < b`: false as soon as an operand is NaN. -/
def lt : Ext → Ext → Bool
  | nan, _ => false
  | _, nan => false
  | negInf, negInf => false
  | negInf, _ => true
  | _, negInf => false
  | fin a, fin b => decide (a < b)
  | fin _, posInf => true
  | posInf, _ => false

end Ext

/-- An executable instance of the arithmetic with NaN and the infinities. It agrees with IEEE
arithmetic on every input whose finite intermediate values are small non-negative integers
with exact quotients and square roots, which is the case for all inputs used below.
Directions are numbered `StepBackward = 0`, `StepForward = 1`. -/
def extOps : FloatOps Ext StepDirection where
  zero := Ext.fin 0
  add := Ext.add
  sub := fun a b => Ext.add a (Ext.neg b)
  mul := Ext.mul
  div := Ext.div
  sqrt := Ext.sqrt
  abs := Ext.abs
  lt := Ext.lt
  ofDir := fun d => match d with
    | StepDirection.StepBackward => Ext.fin 0
    | StepDirection.StepForward => Ext.fin 1
  dirInit := StepDirection.StepBackward

/-- A one-axis driver whose state is the list of the float arguments of the queries it has
received (position, velocity components, extrusion speed); it always answers step time 100,
forward. -/
def drvRecord : Driver Ext StepDirection (List (List Ext)) where
  numAxis := 1
  relativeTimeOfNextStep := fun s _ _ cx cy cz ce vx vy vz ve =>
    ((Ext.fin 100, StepDirection.StepForward), s ++ [[cx, cy, cz, ce, vx, vy, vz, ve]])
  getTemperature := fun s t b => ((t, b), s)

/-- A one-axis driver whose state counts the queries: step times 1, then 2, then 100, all
forward. -/
def drvExtSteps : Driver Ext StepDirection Nat where
  numAxis := 1
  relativeTimeOfNextStep := fun n _ _ _ _ _ _ _ _ _ _ =>
    ((if n = 0 then Ext.fin 1 else if n = 1 then Ext.fin 2 else Ext.fin 100,
      StepDirection.StepForward), n + 1)
  getTemperature := fun n t b => ((t, b), n)

/-- A one-axis driver without state whose answer depends on the velocity component `vx` it is
handed: step time 1 when `vx` is the number 0, step time 100 otherwise. -/
def drvByVx : Driver Ext StepDirection Unit where
  numAxis := 1
  relativeTimeOfNextStep := fun _ _ _ _ _ _ _ vx _ _ _ =>
    ((if vx = Ext.fin 0 then Ext.fin 1 else Ext.fin 100, StepDirection.StepForward), ())
  getTemperature := fun _ t b => ((t, b), ())

/-- A one-axis driver whose state counts the queries: it answers the step time -1 to its
first two queries and 100 from then on, all forward. The value -1 is only stored and
compared. -/
def drvExtEarly : Driver Ext StepDirection Nat where
  numAxis := 1
  relativeTimeOfNextStep := fun n _ _ _ _ _ _ _ _ _ _ =>
    ((if n ≤ 1 then Ext.fin (-1) else Ext.fin 100, StepDirection.StepForward), n + 1)
  getTemperature := fun n t b => ((t, b), n)

/-- A one-axis driver without state whose next step is always 100 time units away. -/
def drvExtLate : Driver Ext StepDirection Unit where
  numAxis := 1
  relativeTimeOfNextStep := fun _ _ _ _ _ _ _ _ _ _ _ =>
    ((Ext.fin 100, StepDirection.StepForward), ())
  getTemperature := fun _ t b => ((t, b), ())

end instances

end gparse

/-- Modelled from the spec: common/typesettings.h, which declares `EventClockT`, is not among
the sources. A `time_point` is a count of clock ticks since the epoch of the clock, and the
default-constructed `EventClockT::time_point()` is the epoch itself, count 0. -/
def timePointDefault : Int := 0

/-- The data member of `class IntervalTimer` (intervaltimer.h line 16): the instant of the last
observation, in ticks since the epoch. -/
structure IntervalTimer where
  _last : Int
deriving DecidableEq, Repr

namespace IntervalTimer

/-- Modelled from the spec: intervaltimer.cpp is not among the sources; "reset() clears the
last-observed instant", that is, stores the default `time_point`. -/
def reset (_tm : IntervalTimer) : IntervalTimer :=
  { _last := timePointDefault }

/-- The member function `IntervalTimer::clockCmp` (lines 26-43). `now` is the reading that
`EventClockT::now()` returns during the call, `cmp` the threshold in ticks; the result is the
returned `int` and the timer after the call. -/
def clockCmp (tm : IntervalTimer) (now : Int) (cmp : Int) (dflt : Int) : Int × IntervalTimer :=
  let ret :=
    if tm._last = timePointDefault then dflt
    else
      let duration := now - tm._last
      if duration > cmp then 1 else (if duration < cmp then -1 else 0)
  (ret, { _last := now })

end IntervalTimer

namespace logging

/-- The three flags `_info`, `_debug`, `_verbose` of logging.h (lines 60-62, `DO_LOG == 1`),
with the lines written to standard output by the `LOG` macro. -/
structure LogState where
  _info : Bool
  _debug : Bool
  _verbose : Bool
  stdout : List String
deriving DecidableEq, Repr

/-- Lines 64-66. -/
def isInfoEnabled (s : LogState) : Bool := s._info

/-- Lines 67-69. -/
def isDebugEnabled (s : LogState) : Bool := s._debug

/-- Lines 70-72. -/
def isVerboseEnabled (s : LogState) : Bool := s._verbose

/-- The macro `LOG(format)` (lines 18-21 and 30): when info logging is enabled, print the
message behind the tag "[INFO] ". -/
def LOG (s : LogState) (message : String) : LogState :=
  if isInfoEnabled s then { s with stdout := s.stdout ++ ["[INFO] " ++ message] } else s

/-- Lines 74-78. -/
def disable (s : LogState) : LogState :=
  { s with _info := false, _debug := false, _verbose := false }

/-- Lines 80-83. -/
def enableDebug (s : LogState) : LogState :=
  LOG { s with _debug := true } "debug logging enabled\n"

/-- Lines 84-88. -/
def enableVerbose (s : LogState) : LogState :=
  LOG { enableDebug s with _verbose := true } "verbose logging enabled\n"

end logging

namespace gparse

section theorems

variable {F D S : Type}

/-- The G1 branch of `execute` as one equation: the call of `queueMovement` with the arguments
the branch computes, and the state it leaves. -/
theorem execute_G1_eq (cv : UnitConv F D) (ops : FloatOps F D) (drv : Driver F D S)
    (fuel : Nat) (st : State F D) (ds : S) (cmd : Command F) (h : cmd.getOpcode = OP_G1) :
    execute cv ops drv fuel st ds cmd
      = (queueMovement ops drv fuel st.scheduler ds
            st.destXPrimitive st.destYPrimitive st.destZPrimitive st.destEPrimitive
            (if cmd.getX.2 = true then cv.xUnitToPrimitive st cmd.getX.1 else st.destXPrimitive)
            (if cmd.getY.2 = true then cv.yUnitToPrimitive st cmd.getY.1 else st.destYPrimitive)
            (if cmd.getZ.2 = true then cv.zUnitToPrimitive st cmd.getZ.1 else st.destZPrimitive)
            cmd.getE.1
            st.destMoveRatePrimitive
            (if cmd.getF.2 = true then cv.fUnitToPrimitive st cmd.getF.1
              else st.destFeedRatePrimitive)).map
          (fun r => (Outcome.returned Response.empty,
            { st with
              scheduler := r.1
              _destFeedRatePrimitive :=
                if cmd.getF.2 = true then cv.fUnitToPrimitive st cmd.getF.1
                else st.destFeedRatePrimitive },
            r.2)) := by
  cases hF : cmd.getF.2 <;>
    simp [execute, h, hF, State.setDestFeedRatePrimitive, State.destFeedRatePrimitive,
      State.destMoveRatePrimitive, State.destXPrimitive, State.destYPrimitive,
      State.destZPrimitive, State.destEPrimitive]

/-- No branch of `execute` writes the stored destination: whatever the command, the four
destination fields after the call are those before it. -/
theorem execute_keeps_destination (cv : UnitConv F D) (ops : FloatOps F D) (drv : Driver F D S)
    (fuel : Nat) (st st1 : State F D) (ds ds1 : S) (cmd : Command F) (o : Outcome)
    (h : execute cv ops drv fuel st ds cmd = some (o, st1, ds1)) :
    st1.destXPrimitive = st.destXPrimitive ∧ st1.destYPrimitive = st.destYPrimitive
      ∧ st1.destZPrimitive = st.destZPrimitive ∧ st1.destEPrimitive = st.destEPrimitive := by
  by_cases h1 : cmd.getOpcode = OP_G1
  · rw [execute_G1_eq cv ops drv fuel st ds cmd h1] at h
    simp only [Option.map_eq_some'] at h
    obtain ⟨r, -, hr⟩ := h
    simp only [Prod.mk.injEq] at hr
    obtain ⟨-, hst, -⟩ := hr
    subst hst
    simp [State.destXPrimitive, State.destYPrimitive, State.destZPrimitive,
      State.destEPrimitive]
  · unfold execute at h
    simp only [h1, if_false] at h
    split_ifs at h <;> simp only [Option.some.injEq, Prod.mk.injEq] at h <;>
      obtain ⟨-, hst, -⟩ := h <;> subst hst <;>
      simp [State.destXPrimitive, State.destYPrimitive, State.destZPrimitive,
        State.destEPrimitive, State.setUnitMode, State.setPositionMode]

/-- Every pass of the loop appends one event, and the body runs before the condition is
tested: when the loop ends, the queue is the queue at entry followed by at least one event. -/
theorem doWhile_appends (ops : FloatOps F D) (drv : Driver F D S)
    (curX curY curZ curE vx vy vz velE duration durationE : F) (fuel : Nat) :
    ∀ (s s2 : LoopState F D S),
      doWhile ops drv curX curY curZ curE vx vy vz velE duration durationE fuel s = some s2 →
      ∃ evs : List (Event F D), evs ≠ [] ∧ s2.scheduler = s.scheduler ++ evs := by
  induction fuel with
  | zero =>
    intro s s2 h
    simp [doWhile] at h
  | succ n ih =>
    intro s s2 h
    rw [doWhile] at h
    have hb : ∃ ev : Event F D,
        (loopBody ops drv curX curY curZ curE vx vy vz velE duration durationE s).scheduler
          = s.scheduler ++ [ev] := ⟨_, rfl⟩
    obtain ⟨ev, hev⟩ := hb
    cases hc : loopCond ops duration
        (loopBody ops drv curX curY curZ curE vx vy vz velE duration durationE s) with
    | true =>
      simp only [hc, if_true] at h
      obtain ⟨evs, -, hevs⟩ := ih _ _ h
      refine ⟨ev :: evs, List.cons_ne_nil ev evs, ?_⟩
      rw [hevs, hev, List.append_assoc, List.singleton_append]
    | false =>
      simp only [hc, Bool.false_eq_true, if_false, Option.some.injEq] at h
      subst h
      exact ⟨[ev], List.cons_ne_nil ev [], hev⟩

/-- With at least one axis, a call of `queueMovement` that returns has appended at least one
event to the queue, whatever the move, the rates and the answers of the driver. -/
theorem queueMovement_appends (ops : FloatOps F D) (drv : Driver F D S) (fuel : Nat)
    (scheduler q : Scheduler F D) (ds ds1 : S) (curX curY curZ curE x y z e velXYZ velE : F)
    (hn : drv.numAxis ≠ 0)
    (h : queueMovement ops drv fuel scheduler ds curX curY curZ curE x y z e velXYZ velE
          = some (q, ds1)) :
    ∃ evs : List (Event F D), evs ≠ [] ∧ q = scheduler ++ evs := by
  simp only [queueMovement, hn, if_false, Option.map_eq_some', Prod.mk.injEq] at h
  obtain ⟨s2, hs2, hq, -⟩ := h
  obtain ⟨evs, hne, hevs⟩ := doWhile_appends _ _ _ _ _ _ _ _ _ _ _ _ _ _ _ hs2
  exact ⟨evs, hne, by rw [← hq, hevs]⟩

/-- C1: for every state and every command whose opcode is none of G1, G20, G21, G90, G91, M21,
M105, M110, `execute` throws the string "unrecognized gcode opcode" instead of returning a
reply, and the machine state (modes, destinations, rates, scheduler queue) and the driver state
after the call are those before it. -/
theorem execute_unrecognized_opcode (cv : UnitConv F D) (ops : FloatOps F D) (drv : Driver F D S)
    (fuel : Nat) (st : State F D) (ds : S) (cmd : Command F)
    (h : cmd.getOpcode ∉ [OP_G1, OP_G20, OP_G21, OP_G90, OP_G91, OP_M21, OP_M105, OP_M110]) :
    execute cv ops drv fuel st ds cmd
      = some (Outcome.threw "unrecognized gcode opcode", st, ds) := by
  simp only [List.mem_cons, List.mem_singleton, List.not_mem_nil, or_false, not_or] at h
  obtain ⟨h1, h2, h3, h4, h5, h6, h7, h8⟩ := h
  simp [execute, h1, h2, h3, h4, h5, h6, h7, h8]

/-- Witness of C1: the opcode G999 on the machine at the origin. -/
theorem execute_unrecognized_opcode_witness :
    (bareCommand "G999").getOpcode
        ∉ [OP_G1, OP_G20, OP_G21, OP_G90, OP_G91, OP_M21, OP_M105, OP_M110]
    ∧ execute idConv intOps drvLate 0 originState () (bareCommand "G999")
        = some (Outcome.threw "unrecognized gcode opcode", originState, ()) :=
  ⟨by decide, execute_unrecognized_opcode idConv intOps drvLate 0 originState ()
    (bareCommand "G999") (by decide)⟩

/-- C2 (the code at the failing input): the machine at the origin accepts `G1 X5 E5`; the
resolved X target is 5 and a step event is queued, yet the stored destination read after the
call is still (0, 0, 0, 0). -/
theorem execute_G1_destination_stale :
    execute idConv intOps drvLate 10 originState () cmdG1X5E5
        = some (Outcome.returned Response.empty,
            { originState with scheduler := [⟨1, 0, StepDirection.StepForward⟩] }, ())
    ∧ idConv.xUnitToPrimitive originState cmdG1X5E5.getX.1 = 5
    ∧ cmdG1X5E5.getE.1 = 5
    ∧ State.destXPrimitive
        { originState with scheduler := [⟨1, 0, StepDirection.StepForward⟩] } = 0
    ∧ State.destEPrimitive
        { originState with scheduler := [⟨1, 0, StepDirection.StepForward⟩] } = 0 := by
  decide

/-- C3: for every state (any unit mode, any positioning mode) and every G1 command, `execute`
is the call of `queueMovement` whose target coordinate for each of X, Y, Z is the stored
destination of that axis, unconverted, when the parameter is absent, and the matching
`xUnitToPrimitive` / `yUnitToPrimitive` / `zUnitToPrimitive` of the supplied value when it is
present. -/
theorem execute_G1_targets (cv : UnitConv F D) (ops : FloatOps F D) (drv : Driver F D S)
    (fuel : Nat) (st : State F D) (ds : S) (cmd : Command F) (h : cmd.getOpcode = OP_G1) :
    ∃ (x y z : F) (st1 : State F D),
      (cmd.getX.2 = false → x = st.destXPrimitive)
      ∧ (cmd.getX.2 = true → x = cv.xUnitToPrimitive st cmd.getX.1)
      ∧ (cmd.getY.2 = false → y = st.destYPrimitive)
      ∧ (cmd.getY.2 = true → y = cv.yUnitToPrimitive st cmd.getY.1)
      ∧ (cmd.getZ.2 = false → z = st.destZPrimitive)
      ∧ (cmd.getZ.2 = true → z = cv.zUnitToPrimitive st cmd.getZ.1)
      ∧ st1.scheduler = st.scheduler
      ∧ execute cv ops drv fuel st ds cmd
          = (queueMovement ops drv fuel st.scheduler ds
                st.destXPrimitive st.destYPrimitive st.destZPrimitive st.destEPrimitive
                x y z cmd.getE.1
                st1.destMoveRatePrimitive st1.destFeedRatePrimitive).map
              (fun r => (Outcome.returned Response.empty, { st1 with scheduler := r.1 }, r.2))
          := by
  refine ⟨if cmd.getX.2 = true then cv.xUnitToPrimitive st cmd.getX.1 else st.destXPrimitive,
    if cmd.getY.2 = true then cv.yUnitToPrimitive st cmd.getY.1 else st.destYPrimitive,
    if cmd.getZ.2 = true then cv.zUnitToPrimitive st cmd.getZ.1 else st.destZPrimitive,
    { st with _destFeedRatePrimitive :=
        if cmd.getF.2 = true then cv.fUnitToPrimitive st cmd.getF.1
        else st.destFeedRatePrimitive },
    ?_, ?_, ?_, ?_, ?_, ?_, rfl, ?_⟩
  · intro hx; simp [hx]
  · intro hx; simp [hx]
  · intro hy; simp [hy]
  · intro hy; simp [hy]
  · intro hz; simp [hz]
  · intro hz; simp [hz]
  · rw [execute_G1_eq cv ops drv fuel st ds cmd h]
    rfl

/-- Witness of C3: `G1 X5 E5` on the machine at the origin, X present, Y and Z absent. -/
theorem execute_G1_targets_witness :
    cmdG1X5E5.getOpcode = OP_G1
    ∧ ∃ (x y z : Int) (st1 : State Int StepDirection),
      (cmdG1X5E5.getX.2 = false → x = originState.destXPrimitive)
      ∧ (cmdG1X5E5.getX.2 = true → x = idConv.xUnitToPrimitive originState cmdG1X5E5.getX.1)
      ∧ (cmdG1X5E5.getY.2 = false → y = originState.destYPrimitive)
      ∧ (cmdG1X5E5.getY.2 = true → y = idConv.yUnitToPrimitive originState cmdG1X5E5.getY.1)
      ∧ (cmdG1X5E5.getZ.2 = false → z = originState.destZPrimitive)
      ∧ (cmdG1X5E5.getZ.2 = true → z = idConv.zUnitToPrimitive originState cmdG1X5E5.getZ.1)
      ∧ st1.scheduler = originState.scheduler
      ∧ execute idConv intOps drvLate 10 originState () cmdG1X5E5
          = (queueMovement intOps drvLate 10 originState.scheduler ()
                originState.destXPrimitive originState.destYPrimitive
                originState.destZPrimitive originState.destEPrimitive
                x y z cmdG1X5E5.getE.1
                st1.destMoveRatePrimitive st1.destFeedRatePrimitive).map
              (fun r => (Outcome.returned Response.empty, { st1 with scheduler := r.1 }, r.2)) :=
  ⟨rfl, execute_G1_targets idConv intOps drvLate 10 originState () cmdG1X5E5 rfl⟩

/-- C4: for every state and whatever parameters the command carries, `execute` on G20 sets the
unit mode to inch, on G21 to millimetre, on G90 sets the positioning mode to absolute and on
G91 to relative; it changes nothing else and returns `Command::OK` in each case. -/
theorem execute_mode_switches (cv : UnitConv F D) (ops : FloatOps F D) (drv : Driver F D S)
    (fuel : Nat) (st : State F D) (ds : S) (cmd : Command F) :
    execute cv ops drv fuel st ds { cmd with getOpcode := OP_G20 }
        = some (Outcome.returned Response.OK, { st with unitMode := LengthUnit.UNIT_IN }, ds)
    ∧ execute cv ops drv fuel st ds { cmd with getOpcode := OP_G21 }
        = some (Outcome.returned Response.OK, { st with unitMode := LengthUnit.UNIT_MM }, ds)
    ∧ execute cv ops drv fuel st ds { cmd with getOpcode := OP_G90 }
        = some (Outcome.returned Response.OK,
            { st with positionMode := PositionMode.POS_ABSOLUTE }, ds)
    ∧ execute cv ops drv fuel st ds { cmd with getOpcode := OP_G91 }
        = some (Outcome.returned Response.OK,
            { st with positionMode := PositionMode.POS_RELATIVE }, ds) := by
  refine ⟨?_, ?_, ?_, ?_⟩ <;>
    simp [execute, OP_G1, OP_G20, OP_G21, OP_G90, OP_G91, State.setUnitMode,
      State.setPositionMode]

/-- C5: for every state, when the driver's `getTemperature`, called with both readings preset
to -300, reports the pair (t, b), `execute` on M105 returns the reply whose text is "ok T:"
followed by the decimal rendering of t, " B:" and the decimal rendering of b, and leaves the
machine state as it was; a reading the driver left at its preset value is rendered as the
literal -300. -/
theorem execute_M105_reply (cv : UnitConv F D) (ops : FloatOps F D) (drv : Driver F D S)
    (fuel : Nat) (st : State F D) (ds ds1 : S) (cmd : Command F) (t b : Int)
    (h : cmd.getOpcode = OP_M105)
    (hT : drv.getTemperature ds DEFAULT_HOTEND_TEMP DEFAULT_BED_TEMP = ((t, b), ds1)) :
    execute cv ops drv fuel st ds cmd
        = some (Outcome.returned
            (Response.text ("ok T:" ++ to_string t ++ " B:" ++ to_string b)), st, ds1)
    ∧ (b = DEFAULT_BED_TEMP →
        execute cv ops drv fuel st ds cmd
          = some (Outcome.returned
              (Response.text ("ok T:" ++ to_string t ++ " B:-300")), st, ds1))
    ∧ (t = DEFAULT_HOTEND_TEMP →
        execute cv ops drv fuel st ds cmd
          = some (Outcome.returned
              (Response.text ("ok T:-300 B:" ++ to_string b)), st, ds1)) := by
  have main : execute cv ops drv fuel st ds cmd
      = some (Outcome.returned
          (Response.text ("ok T:" ++ to_string t ++ " B:" ++ to_string b)), st, ds1) := by
    simp [execute, h, hT, OP_G1, OP_G20, OP_G21, OP_G90, OP_G91, OP_M21, OP_M105]
  have sentinel : to_string (-300) = "-300" := by decide
  have bed : " B:" ++ "-300" = " B:-300" := by decide
  have hotend : "ok T:" ++ "-300" ++ " B:" = "ok T:-300 B:" := by decide
  refine ⟨main, ?_, ?_⟩
  · intro hb
    rw [main, hb, DEFAULT_BED_TEMP, sentinel, String.append_assoc, bed]
  · intro ht
    rw [main, ht, DEFAULT_HOTEND_TEMP, sentinel, hotend]

/-- Witness of C5: a driver reporting hotend 205 and bed 60 yields "ok T:205 B:60"; a driver
that writes hotend 205 and leaves the bed reading untouched yields "ok T:205 B:-300". -/
theorem execute_M105_reply_witness :
    (bareCommand "M105").getOpcode = OP_M105
    ∧ drvLate.getTemperature () DEFAULT_HOTEND_TEMP DEFAULT_BED_TEMP = ((205, 60), ())
    ∧ drvTwoAxis.getTemperature 0 DEFAULT_HOTEND_TEMP DEFAULT_BED_TEMP = ((205, -300), 0)
    ∧ execute idConv intOps drvLate 0 originState () (bareCommand "M105")
        = some (Outcome.returned (Response.text "ok T:205 B:60"), originState, ())
    ∧ execute idConv intOps drvTwoAxis 0 originState 0 (bareCommand "M105")
        = some (Outcome.returned (Response.text "ok T:205 B:-300"), originState, 0) :=
  ⟨rfl, rfl, rfl,
    (execute_M105_reply idConv intOps drvLate 0 originState () () (bareCommand "M105")
      205 60 rfl rfl).1,
    (execute_M105_reply idConv intOps drvTwoAxis 0 originState 0 0 (bareCommand "M105")
      205 (-300) rfl rfl).2.1 rfl⟩

/-- C6: for every state and every G1 command, the extrusion speed `velE` that `execute` passes
to `queueMovement` is `fUnitToPrimitive(f)` when F is present with value f and the stored feed
rate when F is absent; the feed rate stored after the call is that same value; the Cartesian
speed `velXYZ` passed is the stored move rate, which is the same after the call. -/
theorem execute_G1_rates (cv : UnitConv F D) (ops : FloatOps F D) (drv : Driver F D S)
    (fuel : Nat) (st : State F D) (ds : S) (cmd : Command F) (h : cmd.getOpcode = OP_G1) :
    ∃ (velE x y z : F) (after : Scheduler F D → State F D),
      (cmd.getF.2 = true → velE = cv.fUnitToPrimitive st cmd.getF.1)
      ∧ (cmd.getF.2 = false → velE = st.destFeedRatePrimitive)
      ∧ (∀ q, (after q).destFeedRatePrimitive = velE
            ∧ (after q).destMoveRatePrimitive = st.destMoveRatePrimitive)
      ∧ execute cv ops drv fuel st ds cmd
          = (queueMovement ops drv fuel st.scheduler ds
                st.destXPrimitive st.destYPrimitive st.destZPrimitive st.destEPrimitive
                x y z cmd.getE.1
                st.destMoveRatePrimitive velE).map
              (fun r => (Outcome.returned Response.empty, after r.1, r.2)) := by
  refine ⟨if cmd.getF.2 = true then cv.fUnitToPrimitive st cmd.getF.1
      else st.destFeedRatePrimitive,
    if cmd.getX.2 = true then cv.xUnitToPrimitive st cmd.getX.1 else st.destXPrimitive,
    if cmd.getY.2 = true then cv.yUnitToPrimitive st cmd.getY.1 else st.destYPrimitive,
    if cmd.getZ.2 = true then cv.zUnitToPrimitive st cmd.getZ.1 else st.destZPrimitive,
    fun q => { st with
      scheduler := q
      _destFeedRatePrimitive :=
        if cmd.getF.2 = true then cv.fUnitToPrimitive st cmd.getF.1
        else st.destFeedRatePrimitive },
    ?_, ?_, ?_, ?_⟩
  · intro hf; simp [hf]
  · intro hf; simp [hf]
  · intro q
    exact ⟨rfl, rfl⟩
  · exact execute_G1_eq cv ops drv fuel st ds cmd h

/-- Witness of C6: `G1 X5 E4 F2` on the machine at the origin. -/
theorem execute_G1_rates_witness :
    cmdG1X5E4F2.getOpcode = OP_G1
    ∧ ∃ (velE x y z : Int) (after : Scheduler Int StepDirection → State Int StepDirection),
      (cmdG1X5E4F2.getF.2 = true → velE = idConv.fUnitToPrimitive originState cmdG1X5E4F2.getF.1)
      ∧ (cmdG1X5E4F2.getF.2 = false → velE = originState.destFeedRatePrimitive)
      ∧ (∀ q, (after q).destFeedRatePrimitive = velE
            ∧ (after q).destMoveRatePrimitive = originState.destMoveRatePrimitive)
      ∧ execute idConv intOps drvLate 10 originState () cmdG1X5E4F2
          = (queueMovement intOps drvLate 10 originState.scheduler ()
                originState.destXPrimitive originState.destYPrimitive
                originState.destZPrimitive originState.destEPrimitive
                x y z cmdG1X5E4F2.getE.1
                originState.destMoveRatePrimitive velE).map
              (fun r => (Outcome.returned Response.empty, after r.1, r.2)) :=
  ⟨rfl, execute_G1_rates idConv intOps drvLate 10 originState () cmdG1X5E4F2 rfl⟩

/-- C7: for every state and whatever parameters the command carries, `execute` on M21 and on
M110 returns `Command::OK` and leaves the whole machine state (modes, destinations, rates,
scheduler queue) and the driver state as they were. -/
theorem execute_noop_opcodes (cv : UnitConv F D) (ops : FloatOps F D) (drv : Driver F D S)
    (fuel : Nat) (st : State F D) (ds : S) (cmd : Command F) :
    execute cv ops drv fuel st ds { cmd with getOpcode := OP_M21 }
        = some (Outcome.returned Response.OK, st, ds)
    ∧ execute cv ops drv fuel st ds { cmd with getOpcode := OP_M110 }
        = some (Outcome.returned Response.OK, st, ds) := by
  refine ⟨?_, ?_⟩ <;>
    simp [execute, OP_G1, OP_G20, OP_G21, OP_G90, OP_G91, OP_M21, OP_M105, OP_M110]

/-- C8 (the code at the failing input): two axes, move from the origin to X = 5, E = 5 at unit
rates (duration 5). The array starts as times 2 and 1, so the first pass picks axis 1, whose
next time becomes 3. The loop continues, and the second pass picks axis 1 again, at pending
time 3, although axis 0 is pending at the smaller time 2: `minIdx` is not reset to 0 and the
scan starts at index 1. Both queued events are for axis 1. -/
theorem queueMovement_second_pass_not_minimum :
    twoAxisStart.times
        = [(2, StepDirection.StepForward), (1, StepDirection.StepForward)]
    ∧ (twoAxisPass twoAxisStart).minIdx = 1
    ∧ (twoAxisPass twoAxisStart).times
        = [(2, StepDirection.StepForward), (3, StepDirection.StepForward)]
    ∧ loopCond intOps 5 (twoAxisPass twoAxisStart) = true
    ∧ (twoAxisPass (twoAxisPass twoAxisStart)).minIdx = 1
    ∧ intOps.lt 2 3 = true
    ∧ (twoAxisPass (twoAxisPass twoAxisStart)).scheduler.map (fun ev => ev.axis) = [1, 1]
    ∧ queueMovement intOps drvTwoAxis 10 [] 0 0 0 0 0 5 0 0 5 1 1
        = some ([⟨1, 1, StepDirection.StepForward⟩, ⟨1, 1, StepDirection.StepForward⟩], 4) := by
  decide

/-- C9 (the code at the failing input): one axis whose successive step times 1, 2, 100 never
decrease, move from the origin to X = 5, E = 5 at unit rates. The time field of each queued
event is the direction converted to a number, not the step time: with `StepForward = 1` and
directions reported forward then backward the queued times are 1 then 0; with the other
numbering and directions reported backward then forward they are again 1 then 0. -/
theorem queueMovement_event_times_decrease :
    (∀ (a b d e : StepDirection) (n axis : Nat),
        ((drvOneAxis a b).relativeTimeOfNextStep n axis d 0 0 0 0 1 0 0 1).1.1
          ≤ ((drvOneAxis a b).relativeTimeOfNextStep (n + 1) axis e 0 0 0 0 1 0 0 1).1.1)
    ∧ queueMovement intOps
          (drvOneAxis StepDirection.StepForward StepDirection.StepBackward)
          10 [] 0 0 0 0 0 5 0 0 5 1 1
        = some ([⟨1, 0, StepDirection.StepForward⟩, ⟨0, 0, StepDirection.StepBackward⟩], 3)
    ∧ queueMovement intOpsFwdFirst
          (drvOneAxis StepDirection.StepBackward StepDirection.StepForward)
          10 [] 0 0 0 0 0 5 0 0 5 1 1
        = some ([⟨1, 0, StepDirection.StepBackward⟩, ⟨0, 0, StepDirection.StepForward⟩], 3)
    ∧ intOps.lt 0 1 = true := by
  refine ⟨?_, by decide, by decide, by decide⟩
  intro a b d e n axis
  simp only [drvOneAxis]
  split_ifs <;> first | contradiction | omega

/-- C10 (the code at the failing input): one axis whose next step is always 100 time units
away, move from the origin to X = 5, E = 5 at unit rates, so that the duration is 5. Every
initial next-step time exceeds the duration, yet the call queues an event: the body of the
`do ... while` loop runs once before the condition is tested. -/
theorem queueMovement_queues_beyond_duration :
    (initTimes intOps drvLate () 0 0 0 0 1 0 0 1).1 = [(100, StepDirection.StepForward)]
    ∧ intOps.min (intOps.div (intOps.sqrt 25) 1) (intOps.div (intOps.abs (intOps.sub 5 0)) 1) = 5
    ∧ intOps.lt 5 100 = true
    ∧ queueMovement intOps drvLate 10 [] () 0 0 0 0 5 0 0 5 1 1
        = some ([⟨1, 0, StepDirection.StepForward⟩], ()) := by
  decide

/-- The body of `queueMovement` in terms of its local variables `dist`, `vx`, `vy`, `vz`,
`duration` and `durationE`. -/
theorem queueMovement_eq (ops : FloatOps F D) (drv : Driver F D S) (fuel : Nat)
    (scheduler : Scheduler F D) (ds : S) (curX curY curZ curE x y z e velXYZ velE : F) :
    queueMovement ops drv fuel scheduler ds curX curY curZ curE x y z e velXYZ velE
      = if drv.numAxis = 0 then some (scheduler, ds)
        else
          (doWhile ops drv curX curY curZ curE
              (velOf ops x curX (distOf ops curX curY curZ x y z) velXYZ)
              (velOf ops y curY (distOf ops curX curY curZ x y z) velXYZ)
              (velOf ops z curZ (distOf ops curX curY curZ x y z) velXYZ)
              velE
              (durationOf ops (distOf ops curX curY curZ x y z) curE e velXYZ velE)
              (durationEOf ops curE e velE)
              fuel
              { times := (initTimes ops drv ds curX curY curZ curE
                    (velOf ops x curX (distOf ops curX curY curZ x y z) velXYZ)
                    (velOf ops y curY (distOf ops curX curY curZ x y z) velXYZ)
                    (velOf ops z curZ (distOf ops curX curY curZ x y z) velXYZ) velE).1
                minIdx := 0
                scheduler := scheduler
                drvState := (initTimes ops drv ds curX curY curZ curE
                    (velOf ops x curX (distOf ops curX curY curZ x y z) velXYZ)
                    (velOf ops y curY (distOf ops curX curY curZ x y z) velXYZ)
                    (velOf ops z curZ (distOf ops curX curY curZ x y z) velXYZ) velE).2 }).map
            (fun s => (s.scheduler, s.drvState)) := rfl

/-- A scan that only ever moves to an index of the list stays below the bound of the list. -/
theorem foldl_index_lt (f : Nat → Nat → Bool) (n : Nat) :
    ∀ (l : List Nat) (m : Nat), (∀ i ∈ l, i < n) → m < n →
      l.foldl (fun m i => if f i m then i else m) m < n := by
  intro l
  induction l with
  | nil => intro m _ hm; simpa using hm
  | cons a l ih =>
    intro m hl hm
    simp only [List.foldl_cons]
    apply ih
    · intro i hi; exact hl i (List.mem_cons_of_mem _ hi)
    · split_ifs
      · exact hl a (List.mem_cons_self _ _)
      · exact hm

/-- The scan of lines 150-154 leaves `minIdx` inside the array. -/
theorem selectMin_lt (ops : FloatOps F D) (times : List (F × D)) (numAxis minIdx : Nat)
    (h : minIdx < numAxis) : selectMin ops times numAxis minIdx < numAxis := by
  unfold selectMin
  apply foldl_index_lt (fun i m => ops.lt (timesAt ops times i).1 (timesAt ops times m).1)
  · intro i hi
    exact List.mem_range.mp (List.mem_of_mem_drop hi)
  · exact h

/-- The array `times` has `numAxis` elements when the loop is entered. -/
theorem initTimes_length (ops : FloatOps F D) (drv : Driver F D S) (ds : S)
    (curX curY curZ curE vx vy vz velE : F) :
    (initTimes ops drv ds curX curY curZ curE vx vy vz velE).1.length = drv.numAxis := by
  unfold initTimes
  have key : ∀ (l : List Nat) (acc : List (F × D) × S),
      (l.foldl (fun (acc : List (F × D) × S) (i : Nat) =>
          ((acc.1.set i (drv.relativeTimeOfNextStep acc.2 i (timesAt ops acc.1 i).2
                 curX curY curZ curE vx vy vz velE).1),
            (drv.relativeTimeOfNextStep acc.2 i (timesAt ops acc.1 i).2
                 curX curY curZ curE vx vy vz velE).2)) acc).1.length = acc.1.length := by
    intro l
    induction l with
    | nil => intro acc; rfl
    | cons a l ih =>
      intro acc
      simp only [List.foldl_cons]
      rw [ih]
      simp
  rw [key]
  simp

/-- Reading back the element of `times` that was just assigned. -/
theorem timesAt_set (ops : FloatOps F D) (times : List (F × D)) (m : Nat) (v : F × D)
    (h : m < times.length) : timesAt ops (times.set m v) m = v := by
  unfold timesAt
  simp [List.getD_eq_getElem?_getD, h]

/-- The condition tested at line 165 after a pass is the comparison of the time the driver
answered to the re-query of that pass with `duration`. -/
theorem loopBody_cond (ops : FloatOps F D) (drv : Driver F D S)
    (curX curY curZ curE vx vy vz velE duration durationE : F) (s : LoopState F D S)
    (hlen : s.times.length = drv.numAxis) (hm : s.minIdx < drv.numAxis) :
    loopCond ops duration
        (loopBody ops drv curX curY curZ curE vx vy vz velE duration durationE s)
      = ops.lt (drv.relativeTimeOfNextStep s.drvState
            (selectMin ops s.times drv.numAxis s.minIdx)
            (timesAt ops s.times (selectMin ops s.times drv.numAxis s.minIdx)).2
            curX curY curZ curE vx vy vz velE).1.1 duration := by
  have hsel := selectMin_lt ops s.times drv.numAxis s.minIdx hm
  simp only [loopCond, loopBody]
  rw [timesAt_set ops s.times _ _ (by rw [hlen]; exact hsel)]

/-- On the driver that always answers step time 1, a pass of the loop that starts from the
array [(1, forward)] and `minIdx = 0` ends in the same array and index, has queued one event,
and leaves the loop condition true whenever 1 is below the duration. -/
theorem steady_pass (cx cy cz ce vx vy vz ve duration durationE : Int)
    (hd : intOps.lt 1 duration = true)
    (s : LoopState Int StepDirection Unit)
    (ht : s.times = [(1, StepDirection.StepForward)]) (hm : s.minIdx = 0) :
    (loopBody intOps drvSteady cx cy cz ce vx vy vz ve duration durationE s).times
        = [(1, StepDirection.StepForward)]
    ∧ (loopBody intOps drvSteady cx cy cz ce vx vy vz ve duration durationE s).minIdx = 0
    ∧ (loopBody intOps drvSteady cx cy cz ce vx vy vz ve duration durationE s).scheduler
        = s.scheduler ++ [⟨1, 0, StepDirection.StepForward⟩]
    ∧ loopCond intOps duration
        (loopBody intOps drvSteady cx cy cz ce vx vy vz ve duration durationE s) = true := by
  obtain ⟨times, minIdx, sch, dsv⟩ := s
  simp only at ht hm
  subst ht
  subst hm
  exact ⟨rfl, rfl, rfl, hd⟩

/-- On the driver that always answers step time 1, the loop never ends when 1 is below the
duration: whatever the number of passes allowed, it is exhausted. -/
theorem steady_doWhile (cx cy cz ce vx vy vz ve duration durationE : Int)
    (hd : intOps.lt 1 duration = true) (fuel : Nat) :
    ∀ s : LoopState Int StepDirection Unit,
      s.times = [(1, StepDirection.StepForward)] → s.minIdx = 0 →
      doWhile intOps drvSteady cx cy cz ce vx vy vz ve duration durationE fuel s = none := by
  induction fuel with
  | zero => intro s _ _; rfl
  | succ n ih =>
    intro s ht hm
    obtain ⟨h1, h2, -, h4⟩ := steady_pass cx cy cz ce vx vy vz ve duration durationE hd s ht hm
    rw [doWhile]
    simp only [h4, if_true]
    exact ih _ h1 h2

/-- C11 (the code at the failing input): one axis, a driver that is a function of its
arguments and answers the positive step time 1, move from the origin to X = 5, E = 5 at unit
rates, so that the duration is 5. Every re-query is made with the same arguments, so the
answer is 1 again, 1 < 5 holds after every pass, and the loop never ends: for every bound on
the number of passes the call has not returned, and every pass queues one more event. -/
theorem queueMovement_steady_never_returns (fuel : Nat) :
    queueMovement intOps drvSteady fuel [] () 0 0 0 0 5 0 0 5 1 1 = none
    ∧ durationOf intOps (distOf intOps 0 0 0 5 0 0) 0 5 1 1 = 5
    ∧ ∀ s : LoopState Int StepDirection Unit,
        s.times = [(1, StepDirection.StepForward)] → s.minIdx = 0 →
        (loopBody intOps drvSteady 0 0 0 0 1 0 0 1 5 5 s).scheduler.length
            = s.scheduler.length + 1
        ∧ loopCond intOps 5 (loopBody intOps drvSteady 0 0 0 0 1 0 0 1 5 5 s) = true := by
  refine ⟨?_, by decide, ?_⟩
  · simp only [queueMovement]
    rw [if_neg (by decide)]
    rw [steady_doWhile _ _ _ _ _ _ _ _ _ _ (by decide) fuel _ rfl rfl]
    rfl
  · intro s ht hm
    obtain ⟨-, -, h3, h4⟩ := steady_pass 0 0 0 0 1 0 0 1 5 5 (by decide) s ht hm
    exact ⟨by rw [h3]; simp, h4⟩

/-- C12: when the driver reports no axis, `queueMovement` returns at once, whatever the move
and the rates: the scheduler queue and the state of the driver are those before the call, and
the result is the same whatever `relativeTimeOfNextStep` would answer, since it is never
called. -/
theorem queueMovement_no_axis (ops : FloatOps F D) (drv : Driver F D S) (fuel : Nat)
    (scheduler : Scheduler F D) (ds : S) (curX curY curZ curE x y z e velXYZ velE : F)
    (h : drv.numAxis = 0) :
    queueMovement ops drv fuel scheduler ds curX curY curZ curE x y z e velXYZ velE
        = some (scheduler, ds)
    ∧ ∀ rel : S → Nat → D → F → F → F → F → F → F → F → F → (F × D) × S,
        queueMovement ops { drv with relativeTimeOfNextStep := rel } fuel scheduler ds
            curX curY curZ curE x y z e velXYZ velE
          = some (scheduler, ds) := by
  refine ⟨?_, ?_⟩
  · simp [queueMovement, h]
  · intro rel
    simp [queueMovement, h]

/-- Witness of C12: the driver without axes, any move, no pass allowed. -/
theorem queueMovement_no_axis_witness :
    drvNoAxis.numAxis = 0
    ∧ queueMovement intOps drvNoAxis 0 [⟨7, 3, StepDirection.StepForward⟩] ()
          0 0 0 0 5 0 0 5 1 1
        = some ([⟨7, 3, StepDirection.StepForward⟩], ()) :=
  ⟨rfl, (queueMovement_no_axis intOps drvNoAxis 0 [⟨7, 3, StepDirection.StepForward⟩] ()
    0 0 0 0 5 0 0 5 1 1 rfl).1⟩

/-- C13 (counterexample): two runs on a one-axis driver.
First, the move from the origin to X = 5, E = 5 with `velXYZ = 1` and the zero velocity
`velE = 0`, step times 1, 2, 100: the division by zero gives `durationE` = +infinity, so
`duration` = min(5, +infinity) = 5, and the call queues two events, the second one after the
loop condition 2 < 5 was tested and found true.
Second, the move whose target is its start in X, Y, Z and E, at unit rates, so that
`duration` = 0, on a driver that answers the step time -1 twice and then 100: the condition
-1 < 0 is tested and found true, and a second event is queued. -/
theorem queueMovement_zero_velocity_queues :
    drvExtSteps.numAxis = 1
    ∧ durationEOf extOps (Ext.fin 0) (Ext.fin 5) (Ext.fin 0) = Ext.posInf
    ∧ durationOf extOps
        (distOf extOps (Ext.fin 0) (Ext.fin 0) (Ext.fin 0) (Ext.fin 5) (Ext.fin 0) (Ext.fin 0))
        (Ext.fin 0) (Ext.fin 5) (Ext.fin 1) (Ext.fin 0) = Ext.fin 5
    ∧ queueMovement extOps drvExtSteps 10 [] 0
          (Ext.fin 0) (Ext.fin 0) (Ext.fin 0) (Ext.fin 0)
          (Ext.fin 5) (Ext.fin 0) (Ext.fin 0) (Ext.fin 5) (Ext.fin 1) (Ext.fin 0)
        = some ([⟨Ext.fin 1, 0, StepDirection.StepForward⟩,
                 ⟨Ext.fin 1, 0, StepDirection.StepForward⟩], 3)
    ∧ drvExtEarly.numAxis = 1
    ∧ durationOf extOps
        (distOf extOps (Ext.fin 0) (Ext.fin 0) (Ext.fin 0) (Ext.fin 0) (Ext.fin 0) (Ext.fin 0))
        (Ext.fin 0) (Ext.fin 0) (Ext.fin 1) (Ext.fin 1) = Ext.fin 0
    ∧ queueMovement extOps drvExtEarly 10 [] 0
          (Ext.fin 0) (Ext.fin 0) (Ext.fin 0) (Ext.fin 0)
          (Ext.fin 0) (Ext.fin 0) (Ext.fin 0) (Ext.fin 0) (Ext.fin 1) (Ext.fin 1)
        = some ([⟨Ext.fin 1, 0, StepDirection.StepForward⟩,
                 ⟨Ext.fin 1, 0, StepDirection.StepForward⟩], 3) := by
  decide

/-- The loop of `queueMovement` ends at the first test of its condition when no step time that
the driver answers to a query of the move is below `duration`: the call returns, for every
positive bound on the number of passes, and what it leaves is the scheduler and the driver as
the first pass of the loop left them. -/
theorem queueMovement_stops_at_first_test (ops : FloatOps F D) (drv : Driver F D S)
    (fuel : Nat) (scheduler : Scheduler F D) (ds : S)
    (curX curY curZ curE x y z e velXYZ velE : F)
    (hn : drv.numAxis ≠ 0)
    (hlate : ∀ (s : S) (i : Nat) (d : D),
      ops.lt (drv.relativeTimeOfNextStep s i d curX curY curZ curE
          (velOf ops x curX (distOf ops curX curY curZ x y z) velXYZ)
          (velOf ops y curY (distOf ops curX curY curZ x y z) velXYZ)
          (velOf ops z curZ (distOf ops curX curY curZ x y z) velXYZ)
          velE).1.1
        (durationOf ops (distOf ops curX curY curZ x y z) curE e velXYZ velE) = false) :
    loopCond ops (durationOf ops (distOf ops curX curY curZ x y z) curE e velXYZ velE)
        (loopBody ops drv curX curY curZ curE
          (velOf ops x curX (distOf ops curX curY curZ x y z) velXYZ)
          (velOf ops y curY (distOf ops curX curY curZ x y z) velXYZ)
          (velOf ops z curZ (distOf ops curX curY curZ x y z) velXYZ)
          velE
          (durationOf ops (distOf ops curX curY curZ x y z) curE e velXYZ velE)
          (durationEOf ops curE e velE)
          (loopEntry ops drv scheduler ds curX curY curZ curE
            (velOf ops x curX (distOf ops curX curY curZ x y z) velXYZ)
            (velOf ops y curY (distOf ops curX curY curZ x y z) velXYZ)
            (velOf ops z curZ (distOf ops curX curY curZ x y z) velXYZ)
            velE)) = false
    ∧ queueMovement ops drv (fuel + 1) scheduler ds curX curY curZ curE x y z e velXYZ velE
        = some
          ((loopBody ops drv curX curY curZ curE
              (velOf ops x curX (distOf ops curX curY curZ x y z) velXYZ)
              (velOf ops y curY (distOf ops curX curY curZ x y z) velXYZ)
              (velOf ops z curZ (distOf ops curX curY curZ x y z) velXYZ)
              velE
              (durationOf ops (distOf ops curX curY curZ x y z) curE e velXYZ velE)
              (durationEOf ops curE e velE)
              (loopEntry ops drv scheduler ds curX curY curZ curE
                (velOf ops x curX (distOf ops curX curY curZ x y z) velXYZ)
                (velOf ops y curY (distOf ops curX curY curZ x y z) velXYZ)
                (velOf ops z curZ (distOf ops curX curY curZ x y z) velXYZ)
                velE)).scheduler,
           (loopBody ops drv curX curY curZ curE
              (velOf ops x curX (distOf ops curX curY curZ x y z) velXYZ)
              (velOf ops y curY (distOf ops curX curY curZ x y z) velXYZ)
              (velOf ops z curZ (distOf ops curX curY curZ x y z) velXYZ)
              velE
              (durationOf ops (distOf ops curX curY curZ x y z) curE e velXYZ velE)
              (durationEOf ops curE e velE)
              (loopEntry ops drv scheduler ds curX curY curZ curE
                (velOf ops x curX (distOf ops curX curY curZ x y z) velXYZ)
                (velOf ops y curY (distOf ops curX curY curZ x y z) velXYZ)
                (velOf ops z curZ (distOf ops curX curY curZ x y z) velXYZ)
                velE)).drvState) := by
  have hcond := loopBody_cond ops drv curX curY curZ curE
    (velOf ops x curX (distOf ops curX curY curZ x y z) velXYZ)
    (velOf ops y curY (distOf ops curX curY curZ x y z) velXYZ)
    (velOf ops z curZ (distOf ops curX curY curZ x y z) velXYZ)
    velE
    (durationOf ops (distOf ops curX curY curZ x y z) curE e velXYZ velE)
    (durationEOf ops curE e velE)
    (loopEntry ops drv scheduler ds curX curY curZ curE
      (velOf ops x curX (distOf ops curX curY curZ x y z) velXYZ)
      (velOf ops y curY (distOf ops curX curY curZ x y z) velXYZ)
      (velOf ops z curZ (distOf ops curX curY curZ x y z) velXYZ)
      velE)
    (initTimes_length _ _ _ _ _ _ _ _ _ _ _) (Nat.pos_of_ne_zero hn)
  rw [hlate] at hcond
  refine ⟨hcond, ?_⟩
  rw [queueMovement_eq, if_neg hn]
  change Option.map _ (doWhile _ _ _ _ _ _ _ _ _ _ _ _ (fuel + 1) (loopEntry _ _ _ _ _ _ _ _ _ _ _ _)) = _
  rw [doWhile]
  simp only [hcond, Bool.false_eq_true, if_false, Option.map_some']

/-- C13 (amended): a degenerate move gets no event from the loop once its condition has been
tested. For every driver with at least one axis, when the target equals the current position
in X, Y, Z and E and no step time that the driver answers to a query of this move is below
the `duration` of the move, the loop condition is false the first time it is tested and the
call returns, for every positive bound on the number of passes: the queue it leaves is the
queue as the first pass of the loop left it, which is the queue before the call followed by
what that pass queued. What the first pass, which runs before any test, queues is not stated
here. -/
theorem queueMovement_degenerate_stops_at_first_test (ops : FloatOps F D)
    (drv : Driver F D S) (fuel : Nat) (scheduler : Scheduler F D) (ds : S)
    (curX curY curZ curE velXYZ velE : F)
    (hn : drv.numAxis ≠ 0)
    (hlate : ∀ (s : S) (i : Nat) (d : D),
      ops.lt (drv.relativeTimeOfNextStep s i d curX curY curZ curE
          (velOf ops curX curX (distOf ops curX curY curZ curX curY curZ) velXYZ)
          (velOf ops curY curY (distOf ops curX curY curZ curX curY curZ) velXYZ)
          (velOf ops curZ curZ (distOf ops curX curY curZ curX curY curZ) velXYZ)
          velE).1.1
        (durationOf ops (distOf ops curX curY curZ curX curY curZ) curE curE velXYZ velE)
        = false) :
    ∃ (evs : List (Event F D)) (s1 : LoopState F D S),
      s1 = loopBody ops drv curX curY curZ curE
          (velOf ops curX curX (distOf ops curX curY curZ curX curY curZ) velXYZ)
          (velOf ops curY curY (distOf ops curX curY curZ curX curY curZ) velXYZ)
          (velOf ops curZ curZ (distOf ops curX curY curZ curX curY curZ) velXYZ)
          velE
          (durationOf ops (distOf ops curX curY curZ curX curY curZ) curE curE velXYZ velE)
          (durationEOf ops curE curE velE)
          (loopEntry ops drv scheduler ds curX curY curZ curE
            (velOf ops curX curX (distOf ops curX curY curZ curX curY curZ) velXYZ)
            (velOf ops curY curY (distOf ops curX curY curZ curX curY curZ) velXYZ)
            (velOf ops curZ curZ (distOf ops curX curY curZ curX curY curZ) velXYZ)
            velE)
      ∧ s1.scheduler = scheduler ++ evs
      ∧ loopCond ops
          (durationOf ops (distOf ops curX curY curZ curX curY curZ) curE curE velXYZ velE)
          s1 = false
      ∧ queueMovement ops drv (fuel + 1) scheduler ds
            curX curY curZ curE curX curY curZ curE velXYZ velE
          = some (s1.scheduler, s1.drvState) := by
  obtain ⟨hcond, hq⟩ := queueMovement_stops_at_first_test ops drv fuel scheduler ds
    curX curY curZ curE curX curY curZ curE velXYZ velE hn hlate
  exact ⟨[_], _, rfl, rfl, hcond, hq⟩

/-- Witness of C13 (amended): the move whose target is its start, both velocities 1, so that
the duration is 0, on a one-axis driver whose step time is always 100, with one event already
in the queue. -/
theorem queueMovement_degenerate_stops_at_first_test_witness :
    drvExtLate.numAxis ≠ 0
    ∧ durationOf extOps
        (distOf extOps (Ext.fin 0) (Ext.fin 0) (Ext.fin 0) (Ext.fin 0) (Ext.fin 0) (Ext.fin 0))
        (Ext.fin 0) (Ext.fin 0) (Ext.fin 1) (Ext.fin 1) = Ext.fin 0
    ∧ extOps.lt (Ext.fin 100) (Ext.fin 0) = false
    ∧ ∃ (evs : List (Event Ext StepDirection)) (s1 : LoopState Ext StepDirection Unit),
      s1 = loopBody extOps drvExtLate (Ext.fin 0) (Ext.fin 0) (Ext.fin 0) (Ext.fin 0)
          (velOf extOps (Ext.fin 0) (Ext.fin 0)
            (distOf extOps (Ext.fin 0) (Ext.fin 0) (Ext.fin 0)
              (Ext.fin 0) (Ext.fin 0) (Ext.fin 0)) (Ext.fin 1))
          (velOf extOps (Ext.fin 0) (Ext.fin 0)
            (distOf extOps (Ext.fin 0) (Ext.fin 0) (Ext.fin 0)
              (Ext.fin 0) (Ext.fin 0) (Ext.fin 0)) (Ext.fin 1))
          (velOf extOps (Ext.fin 0) (Ext.fin 0)
            (distOf extOps (Ext.fin 0) (Ext.fin 0) (Ext.fin 0)
              (Ext.fin 0) (Ext.fin 0) (Ext.fin 0)) (Ext.fin 1))
          (Ext.fin 1)
          (durationOf extOps
            (distOf extOps (Ext.fin 0) (Ext.fin 0) (Ext.fin 0)
              (Ext.fin 0) (Ext.fin 0) (Ext.fin 0))
            (Ext.fin 0) (Ext.fin 0) (Ext.fin 1) (Ext.fin 1))
          (durationEOf extOps (Ext.fin 0) (Ext.fin 0) (Ext.fin 1))
          (loopEntry extOps drvExtLate [⟨Ext.fin 7, 3, StepDirection.StepBackward⟩] ()
            (Ext.fin 0) (Ext.fin 0) (Ext.fin 0) (Ext.fin 0)
            (velOf extOps (Ext.fin 0) (Ext.fin 0)
              (distOf extOps (Ext.fin 0) (Ext.fin 0) (Ext.fin 0)
                (Ext.fin 0) (Ext.fin 0) (Ext.fin 0)) (Ext.fin 1))
            (velOf extOps (Ext.fin 0) (Ext.fin 0)
              (distOf extOps (Ext.fin 0) (Ext.fin 0) (Ext.fin 0)
                (Ext.fin 0) (Ext.fin 0) (Ext.fin 0)) (Ext.fin 1))
            (velOf extOps (Ext.fin 0) (Ext.fin 0)
              (distOf extOps (Ext.fin 0) (Ext.fin 0) (Ext.fin 0)
                (Ext.fin 0) (Ext.fin 0) (Ext.fin 0)) (Ext.fin 1))
            (Ext.fin 1))
      ∧ s1.scheduler = [⟨Ext.fin 7, 3, StepDirection.StepBackward⟩] ++ evs
      ∧ loopCond extOps
          (durationOf extOps
            (distOf extOps (Ext.fin 0) (Ext.fin 0) (Ext.fin 0)
              (Ext.fin 0) (Ext.fin 0) (Ext.fin 0))
            (Ext.fin 0) (Ext.fin 0) (Ext.fin 1) (Ext.fin 1))
          s1 = false
      ∧ queueMovement extOps drvExtLate (0 + 1) [⟨Ext.fin 7, 3, StepDirection.StepBackward⟩] ()
            (Ext.fin 0) (Ext.fin 0) (Ext.fin 0) (Ext.fin 0)
            (Ext.fin 0) (Ext.fin 0) (Ext.fin 0) (Ext.fin 0) (Ext.fin 1) (Ext.fin 1)
          = some (s1.scheduler, s1.drvState) :=
  ⟨by decide, by decide, by decide,
    queueMovement_degenerate_stops_at_first_test extOps drvExtLate 0
      [⟨Ext.fin 7, 3, StepDirection.StepBackward⟩] ()
      (Ext.fin 0) (Ext.fin 0) (Ext.fin 0) (Ext.fin 0) (Ext.fin 1) (Ext.fin 1)
      (by decide) (fun _ _ _ => rfl)⟩

/-- The array `times` is filled by queries that carry the float arguments of the call: a
driver that answers those queries alike fills it alike. -/
theorem initTimes_congr (ops : FloatOps F D) (drv drv2 : Driver F D S) (ds : S)
    (curX curY curZ curE vx vy vz velE : F)
    (hn : drv2.numAxis = drv.numAxis)
    (h : ∀ (s : S) (i : Nat) (d : D),
      drv2.relativeTimeOfNextStep s i d curX curY curZ curE vx vy vz velE
        = drv.relativeTimeOfNextStep s i d curX curY curZ curE vx vy vz velE) :
    initTimes ops drv2 ds curX curY curZ curE vx vy vz velE
      = initTimes ops drv ds curX curY curZ curE vx vy vz velE := by
  simp only [initTimes, hn, h]

/-- A pass of the loop queries the driver with the float arguments the loop was entered
with: a driver that answers those queries alike makes the same pass. -/
theorem loopBody_congr (ops : FloatOps F D) (drv drv2 : Driver F D S)
    (curX curY curZ curE vx vy vz velE duration durationE : F)
    (hn : drv2.numAxis = drv.numAxis)
    (h : ∀ (s : S) (i : Nat) (d : D),
      drv2.relativeTimeOfNextStep s i d curX curY curZ curE vx vy vz velE
        = drv.relativeTimeOfNextStep s i d curX curY curZ curE vx vy vz velE)
    (s : LoopState F D S) :
    loopBody ops drv2 curX curY curZ curE vx vy vz velE duration durationE s
      = loopBody ops drv curX curY curZ curE vx vy vz velE duration durationE s := by
  simp only [loopBody, hn, h]

/-- The whole loop queries the driver with the float arguments it was entered with. -/
theorem doWhile_congr (ops : FloatOps F D) (drv drv2 : Driver F D S)
    (curX curY curZ curE vx vy vz velE duration durationE : F)
    (hn : drv2.numAxis = drv.numAxis)
    (h : ∀ (s : S) (i : Nat) (d : D),
      drv2.relativeTimeOfNextStep s i d curX curY curZ curE vx vy vz velE
        = drv.relativeTimeOfNextStep s i d curX curY curZ curE vx vy vz velE)
    (fuel : Nat) :
    ∀ s : LoopState F D S,
      doWhile ops drv2 curX curY curZ curE vx vy vz velE duration durationE fuel s
        = doWhile ops drv curX curY curZ curE vx vy vz velE duration durationE fuel s := by
  induction fuel with
  | zero => intro s; rfl
  | succ n ih =>
    intro s
    simp only [doWhile, loopBody_congr ops drv drv2 _ _ _ _ _ _ _ _ _ _ hn h, ih]

/-- C14 (counterexample): the move from the origin to E = 5 whose X, Y, Z target is its start,
at unit rates, on a driver that records the arguments of its queries. `dist` is 0, the
quotient 0/0 is evaluated, and both queries the driver receives carry the velocity components
(NaN, NaN, NaN), not (0, 0, 0). -/
theorem queueMovement_zero_distance_nan :
    distOf extOps (Ext.fin 0) (Ext.fin 0) (Ext.fin 0) (Ext.fin 0) (Ext.fin 0) (Ext.fin 0)
        = Ext.fin 0
    ∧ extOps.div (extOps.sub (Ext.fin 0) (Ext.fin 0)) (Ext.fin 0) = Ext.nan
    ∧ velOf extOps (Ext.fin 0) (Ext.fin 0) (Ext.fin 0) (Ext.fin 1) = Ext.nan
    ∧ queueMovement extOps drvRecord 10 [] []
          (Ext.fin 0) (Ext.fin 0) (Ext.fin 0) (Ext.fin 0)
          (Ext.fin 0) (Ext.fin 0) (Ext.fin 0) (Ext.fin 5) (Ext.fin 1) (Ext.fin 1)
        = some ([⟨Ext.fin 1, 0, StepDirection.StepForward⟩],
            [[Ext.fin 0, Ext.fin 0, Ext.fin 0, Ext.fin 0, Ext.nan, Ext.nan, Ext.nan, Ext.fin 1],
             [Ext.fin 0, Ext.fin 0, Ext.fin 0, Ext.fin 0, Ext.nan, Ext.nan, Ext.nan, Ext.fin 1]])
    ∧ Ext.nan ≠ Ext.fin 0 := by
  decide

/-- C14 (amended): `queueMovement` does not guard the divisions by `dist`. For every move,
also when the X, Y, Z target equals the start, every query the driver receives carries the
velocity components `(x-curX)/dist*velXYZ`, `(y-curY)/dist*velXYZ`, `(z-curZ)/dist*velXYZ`
with `dist = sqrt(distSq)`, each division evaluated: the call depends on the driver through
its answers to the queries with exactly these components, so that a second driver with the
same number of axes and the same answers to them yields the same call. -/
theorem queueMovement_velocity_components (ops : FloatOps F D) (drv drv2 : Driver F D S)
    (fuel : Nat) (scheduler : Scheduler F D) (ds : S)
    (curX curY curZ curE x y z e velXYZ velE : F)
    (hn : drv2.numAxis = drv.numAxis)
    (h : ∀ (s : S) (i : Nat) (d : D),
      drv2.relativeTimeOfNextStep s i d curX curY curZ curE
          (ops.mul (ops.div (ops.sub x curX) (distOf ops curX curY curZ x y z)) velXYZ)
          (ops.mul (ops.div (ops.sub y curY) (distOf ops curX curY curZ x y z)) velXYZ)
          (ops.mul (ops.div (ops.sub z curZ) (distOf ops curX curY curZ x y z)) velXYZ)
          velE
        = drv.relativeTimeOfNextStep s i d curX curY curZ curE
          (ops.mul (ops.div (ops.sub x curX) (distOf ops curX curY curZ x y z)) velXYZ)
          (ops.mul (ops.div (ops.sub y curY) (distOf ops curX curY curZ x y z)) velXYZ)
          (ops.mul (ops.div (ops.sub z curZ) (distOf ops curX curY curZ x y z)) velXYZ)
          velE) :
    queueMovement ops drv2 fuel scheduler ds curX curY curZ curE x y z e velXYZ velE
      = queueMovement ops drv fuel scheduler ds curX curY curZ curE x y z e velXYZ velE := by
  rw [queueMovement_eq, queueMovement_eq]
  simp only [velOf]
  rw [hn, initTimes_congr ops drv drv2 ds _ _ _ _ _ _ _ _ hn h,
    doWhile_congr ops drv drv2 _ _ _ _ _ _ _ _ _ _ hn h]

/-- Witness of C14 (amended): on the move whose X, Y, Z target is its start, a driver that
answers 1 only when it is handed `vx = 0` gives the same call as the driver that always
answers 100, because the component it is handed is 0/0. -/
theorem queueMovement_velocity_components_witness :
    drvByVx.numAxis = drvExtLate.numAxis
    ∧ queueMovement extOps drvByVx 10 [] ()
          (Ext.fin 0) (Ext.fin 0) (Ext.fin 0) (Ext.fin 0)
          (Ext.fin 0) (Ext.fin 0) (Ext.fin 0) (Ext.fin 5) (Ext.fin 1) (Ext.fin 1)
        = queueMovement extOps drvExtLate 10 [] ()
          (Ext.fin 0) (Ext.fin 0) (Ext.fin 0) (Ext.fin 0)
          (Ext.fin 0) (Ext.fin 0) (Ext.fin 0) (Ext.fin 5) (Ext.fin 1) (Ext.fin 1) :=
  ⟨rfl, queueMovement_velocity_components extOps drvExtLate drvByVx 10 [] ()
      (Ext.fin 0) (Ext.fin 0) (Ext.fin 0) (Ext.fin 0)
      (Ext.fin 0) (Ext.fin 0) (Ext.fin 0) (Ext.fin 5) (Ext.fin 1) (Ext.fin 1)
      rfl (fun _ _ _ => rfl)⟩

/-- The event a pass of the loop queues: its axis is the selected index, its direction the
direction stored for that axis, and its time the conversion of that direction to a number
(line 155 reads `.second`). -/
theorem loopBody_event (ops : FloatOps F D) (drv : Driver F D S)
    (curX curY curZ curE vx vy vz velE duration durationE : F) (s : LoopState F D S) :
    (loopBody ops drv curX curY curZ curE vx vy vz velE duration durationE s).scheduler
      = s.scheduler ++
          [⟨ops.ofDir (timesAt ops s.times (selectMin ops s.times drv.numAxis s.minIdx)).2,
            selectMin ops s.times drv.numAxis s.minIdx,
            (timesAt ops s.times (selectMin ops s.times drv.numAxis s.minIdx)).2⟩] := rfl

/-- C17 (the code at the failing input): one axis whose driver answers step time 1, then 2,
then 100, always backward; move from the origin to X = 5, E = 5 at unit rates. The pending
step time is 1 when the first event is queued and 2 when the second is, but both events carry
the time field 0, the number of the direction `StepBackward`; with the other numbering of the
directions and a driver that answers forward, both again carry 0. The axis and direction
fields are the selected axis and the driver's direction. -/
theorem queueMovement_event_time_is_direction :
    (initTimes intOps (drvOneAxis StepDirection.StepBackward StepDirection.StepBackward) 0
        0 0 0 0 1 0 0 1).1 = [(1, StepDirection.StepBackward)]
    ∧ (loopBody intOps (drvOneAxis StepDirection.StepBackward StepDirection.StepBackward)
        0 0 0 0 1 0 0 1 5 5
        { times := [(1, StepDirection.StepBackward)], minIdx := 0, scheduler := [],
          drvState := 1 }).times = [(2, StepDirection.StepBackward)]
    ∧ queueMovement intOps
          (drvOneAxis StepDirection.StepBackward StepDirection.StepBackward)
          10 [] 0 0 0 0 0 5 0 0 5 1 1
        = some ([⟨0, 0, StepDirection.StepBackward⟩, ⟨0, 0, StepDirection.StepBackward⟩], 3)
    ∧ queueMovement intOpsFwdFirst
          (drvOneAxis StepDirection.StepForward StepDirection.StepForward)
          10 [] 0 0 0 0 0 5 0 0 5 1 1
        = some ([⟨0, 0, StepDirection.StepForward⟩, ⟨0, 0, StepDirection.StepForward⟩], 3) := by
  decide

/-- C18 (the code at the failing input): one axis, a driver that records the arguments of its
queries, move from the origin to X = 5, E = 5 at unit rates, so that `vx = 1` and the duration
is 5. After the event is queued the code computes the advanced position
`tempX = curX + min(t, duration) * vx = 1` and `tempE = 1`, but the re-query (the second
recorded query) carries the start position (0, 0, 0, 0), as the first one does. -/
theorem queueMovement_requery_at_start :
    velOf extOps (Ext.fin 5) (Ext.fin 0)
        (distOf extOps (Ext.fin 0) (Ext.fin 0) (Ext.fin 0) (Ext.fin 5) (Ext.fin 0) (Ext.fin 0))
        (Ext.fin 1) = Ext.fin 1
    ∧ extOps.add (Ext.fin 0) (extOps.mul (extOps.min (Ext.fin 1) (Ext.fin 5)) (Ext.fin 1))
        = Ext.fin 1
    ∧ queueMovement extOps drvRecord 10 [] []
          (Ext.fin 0) (Ext.fin 0) (Ext.fin 0) (Ext.fin 0)
          (Ext.fin 5) (Ext.fin 0) (Ext.fin 0) (Ext.fin 5) (Ext.fin 1) (Ext.fin 1)
        = some ([⟨Ext.fin 1, 0, StepDirection.StepForward⟩],
            [[Ext.fin 0, Ext.fin 0, Ext.fin 0, Ext.fin 0,
              Ext.fin 1, Ext.fin 0, Ext.fin 0, Ext.fin 1],
             [Ext.fin 0, Ext.fin 0, Ext.fin 0, Ext.fin 0,
              Ext.fin 1, Ext.fin 0, Ext.fin 0, Ext.fin 1]]) := by
  decide

/-- C19: frame of `execute`. For every state and every command on which `execute` returns a
reply: the unit mode differs after the call only if the opcode is G20 or G21, the positioning
mode only if it is G90 or G91, the stored feed rate only if it is G1 with an F parameter, the
scheduler queue only if it is G1; the stored move rate is the same after the call. -/
theorem execute_frame (cv : UnitConv F D) (ops : FloatOps F D) (drv : Driver F D S)
    (fuel : Nat) (st st1 : State F D) (ds ds1 : S) (cmd : Command F) (r : Response)
    (h : execute cv ops drv fuel st ds cmd = some (Outcome.returned r, st1, ds1)) :
    (st1.unitMode ≠ st.unitMode → cmd.getOpcode = OP_G20 ∨ cmd.getOpcode = OP_G21)
    ∧ (st1.positionMode ≠ st.positionMode → cmd.getOpcode = OP_G90 ∨ cmd.getOpcode = OP_G91)
    ∧ (st1.destFeedRatePrimitive ≠ st.destFeedRatePrimitive →
        cmd.getOpcode = OP_G1 ∧ cmd.getF.2 = true)
    ∧ (st1.scheduler ≠ st.scheduler → cmd.getOpcode = OP_G1)
    ∧ st1.destMoveRatePrimitive = st.destMoveRatePrimitive := by
  by_cases h1 : cmd.getOpcode = OP_G1
  · rw [execute_G1_eq cv ops drv fuel st ds cmd h1] at h
    simp only [Option.map_eq_some', Prod.mk.injEq] at h
    obtain ⟨q, -, -, hst, -⟩ := h
    subst hst
    refine ⟨fun hne => absurd rfl hne, fun hne => absurd rfl hne, ?_, fun _ => h1, rfl⟩
    intro hne
    refine ⟨h1, ?_⟩
    cases hF : cmd.getF.2 with
    | true => rfl
    | false =>
      exfalso
      apply hne
      simp [hF, State.destFeedRatePrimitive]
  · unfold execute at h
    simp only [h1, if_false] at h
    split_ifs at h with h20 h21 h90 h91 hm21 hm105 hm110 <;>
      simp only [Option.some.injEq, Prod.mk.injEq, Outcome.returned.injEq] at h
    · obtain ⟨-, hst, -⟩ := h
      subst hst
      exact ⟨fun _ => Or.inl h20, fun hne => absurd rfl hne, fun hne => absurd rfl hne,
        fun hne => absurd rfl hne, rfl⟩
    · obtain ⟨-, hst, -⟩ := h
      subst hst
      exact ⟨fun _ => Or.inr h21, fun hne => absurd rfl hne, fun hne => absurd rfl hne,
        fun hne => absurd rfl hne, rfl⟩
    · obtain ⟨-, hst, -⟩ := h
      subst hst
      exact ⟨fun hne => absurd rfl hne, fun _ => Or.inl h90, fun hne => absurd rfl hne,
        fun hne => absurd rfl hne, rfl⟩
    · obtain ⟨-, hst, -⟩ := h
      subst hst
      exact ⟨fun hne => absurd rfl hne, fun _ => Or.inr h91, fun hne => absurd rfl hne,
        fun hne => absurd rfl hne, rfl⟩
    · obtain ⟨-, hst, -⟩ := h
      subst hst
      exact ⟨fun hne => absurd rfl hne, fun hne => absurd rfl hne, fun hne => absurd rfl hne,
        fun hne => absurd rfl hne, rfl⟩
    · obtain ⟨-, hst, -⟩ := h
      subst hst
      exact ⟨fun hne => absurd rfl hne, fun hne => absurd rfl hne, fun hne => absurd rfl hne,
        fun hne => absurd rfl hne, rfl⟩
    · obtain ⟨-, hst, -⟩ := h
      subst hst
      exact ⟨fun hne => absurd rfl hne, fun hne => absurd rfl hne, fun hne => absurd rfl hne,
        fun hne => absurd rfl hne, rfl⟩
    · exact absurd h.1 (by simp)

/-- Witness of C19: G20 on the machine at the origin, which returns `Command::OK` with the
unit mode switched to inch. -/
theorem execute_frame_witness :
    execute idConv intOps drvLate 0 originState () (bareCommand "G20")
        = some (Outcome.returned Response.OK,
            { originState with unitMode := LengthUnit.UNIT_IN }, ())
    ∧ (LengthUnit.UNIT_IN ≠ originState.unitMode →
        (bareCommand "G20").getOpcode = OP_G20 ∨ (bareCommand "G20").getOpcode = OP_G21)
    ∧ State.destMoveRatePrimitive { originState with unitMode := LengthUnit.UNIT_IN }
        = originState.destMoveRatePrimitive :=
  ⟨by decide,
    (execute_frame idConv intOps drvLate 0 originState
      { originState with unitMode := LengthUnit.UNIT_IN } () () (bareCommand "G20")
      Response.OK (by decide)).1,
    (execute_frame idConv intOps drvLate 0 originState
      { originState with unitMode := LengthUnit.UNIT_IN } () () (bareCommand "G20")
      Response.OK (by decide)).2.2.2.2⟩

end theorems

end gparse

namespace IntervalTimer

/-- C15 (counterexample): a timer is reset and clocked when the clock reads the epoch, the
default `time_point`; the next call, 5 ticks later with threshold 3 and default 7, returns the
default 7 although the elapsed time 5 exceeds the threshold: the reading stored by the first
call is taken for "no last time". -/
theorem clockCmp_after_epoch_reading_returns_default :
    (clockCmp (reset { _last := 42 }) 0 3 7).1 = 7
    ∧ (clockCmp (clockCmp (reset { _last := 42 }) 0 3 7).2 5 3 7).1 = 7
    ∧ (5 : Int) - 0 > 3
    ∧ (7 : Int) ≠ 1 ∧ (7 : Int) ≠ 0 ∧ (7 : Int) ≠ -1 := by
  decide

/-- C15 (amended): for every threshold, default and clock reading, `clockCmp` on a timer whose
`_last` is the default `time_point` returns the default it is given; a later call returns the
comparison of the elapsed time with its threshold (1, 0 or -1) provided the reading stored by
the call before it is not the default `time_point`, and returns its default again when that
reading is the default `time_point`. -/
theorem clockCmp_first_then_compares (tm : IntervalTimer)
    (now1 cmp1 dflt1 now2 cmp2 dflt2 : Int) :
    (tm._last = timePointDefault → (tm.clockCmp now1 cmp1 dflt1).1 = dflt1)
    ∧ (now1 ≠ timePointDefault →
        ((tm.clockCmp now1 cmp1 dflt1).2.clockCmp now2 cmp2 dflt2).1
          = (if now2 - now1 > cmp2 then 1 else if now2 - now1 < cmp2 then -1 else 0)
        ∧ (((tm.clockCmp now1 cmp1 dflt1).2.clockCmp now2 cmp2 dflt2).1 = 1
            ∨ ((tm.clockCmp now1 cmp1 dflt1).2.clockCmp now2 cmp2 dflt2).1 = 0
            ∨ ((tm.clockCmp now1 cmp1 dflt1).2.clockCmp now2 cmp2 dflt2).1 = -1))
    ∧ (now1 = timePointDefault →
        ((tm.clockCmp now1 cmp1 dflt1).2.clockCmp now2 cmp2 dflt2).1 = dflt2) := by
  refine ⟨?_, ?_, ?_⟩
  · intro h
    simp [clockCmp, h]
  · intro h
    constructor
    · simp [clockCmp, h]
    · simp only [clockCmp, h, if_false]
      split_ifs <;> simp
  · intro h
    simp [clockCmp, h]

/-- Witness of C15 (amended): a reset timer clocked at tick 10 returns the default 7; clocked
again at tick 15 with threshold 3 it returns 1. -/
theorem clockCmp_first_then_compares_witness :
    (reset { _last := 42 })._last = timePointDefault
    ∧ (clockCmp (reset { _last := 42 }) 10 3 7).1 = 7
    ∧ (10 : Int) ≠ timePointDefault
    ∧ (clockCmp (clockCmp (reset { _last := 42 }) 10 3 7).2 15 3 7).1 = 1 :=
  ⟨rfl,
    (clockCmp_first_then_compares (reset { _last := 42 }) 10 3 7 15 3 7).1 rfl,
    by decide,
    ((clockCmp_first_then_compares (reset { _last := 42 }) 10 3 7 15 3 7).2.1 (by decide)).1⟩

/-- C16: for every timer whose `_last` is not the default `time_point` (a prior observation),
every clock reading and every threshold, `clockCmp` returns 1 exactly when `now - last > cmp`,
-1 exactly when `now - last < cmp` and 0 exactly when `now - last = cmp`; and for every timer,
with or without a prior observation, `_last` after the call is `now`. -/
theorem clockCmp_compares_and_stores (tm : IntervalTimer) (now cmp dflt : Int) :
    (tm._last ≠ timePointDefault →
        ((tm.clockCmp now cmp dflt).1 = 1 ↔ now - tm._last > cmp)
        ∧ ((tm.clockCmp now cmp dflt).1 = -1 ↔ now - tm._last < cmp)
        ∧ ((tm.clockCmp now cmp dflt).1 = 0 ↔ now - tm._last = cmp))
    ∧ (tm.clockCmp now cmp dflt).2._last = now := by
  refine ⟨?_, rfl⟩
  intro h
  simp only [clockCmp, if_neg h]
  refine ⟨?_, ?_, ?_⟩ <;> split_ifs <;> constructor <;> intro h2 <;>
    first | omega | (exfalso; revert h2; decide)

/-- Witness of C16: last observation at tick 10, clock at 15: elapsed 5 against the
thresholds 3, 7 and 5; and a reset timer stores the reading as well. -/
theorem clockCmp_compares_and_stores_witness :
    (clockCmp { _last := 10 } 15 3 9).1 = 1
    ∧ (clockCmp { _last := 10 } 15 7 9).1 = -1
    ∧ (clockCmp { _last := 10 } 15 5 9).1 = 0
    ∧ (clockCmp (reset { _last := 10 }) 15 5 9).2._last = 15 :=
  ⟨((clockCmp_compares_and_stores { _last := 10 } 15 3 9).1 (by decide)).1.mpr (by decide),
    ((clockCmp_compares_and_stores { _last := 10 } 15 7 9).1 (by decide)).2.1.mpr (by decide),
    ((clockCmp_compares_and_stores { _last := 10 } 15 5 9).1 (by decide)).2.2.mpr (by decide),
    (clockCmp_compares_and_stores (reset { _last := 10 }) 15 5 9).2⟩

end IntervalTimer

namespace logging

/-- C20: with `DO_LOG` enabled, "verbose implies debug" is preserved by `disable`,
`enableDebug` and `enableVerbose`; after `disable` the three predicates `isInfoEnabled`,
`isDebugEnabled`, `isVerboseEnabled` are false; after `enableVerbose` both `isDebugEnabled`
and `isVerboseEnabled` are true. -/
theorem flags_verbose_implies_debug (s : LogState) :
    ((isVerboseEnabled s = true → isDebugEnabled s = true) →
        (isVerboseEnabled (disable s) = true → isDebugEnabled (disable s) = true)
        ∧ (isVerboseEnabled (enableDebug s) = true → isDebugEnabled (enableDebug s) = true)
        ∧ (isVerboseEnabled (enableVerbose s) = true →
            isDebugEnabled (enableVerbose s) = true))
    ∧ (isInfoEnabled (disable s) = false ∧ isDebugEnabled (disable s) = false
        ∧ isVerboseEnabled (disable s) = false)
    ∧ (isDebugEnabled (enableVerbose s) = true ∧ isVerboseEnabled (enableVerbose s) = true) := by
  have hd : isDebugEnabled (enableDebug s) = true := by
    simp only [enableDebug, LOG, isDebugEnabled, isInfoEnabled]
    split_ifs <;> rfl
  have hvd : isDebugEnabled (enableVerbose s) = true := by
    simp only [enableVerbose, LOG, isDebugEnabled, isInfoEnabled] at hd ⊢
    split_ifs <;> exact hd
  have hvv : isVerboseEnabled (enableVerbose s) = true := by
    simp only [enableVerbose, LOG, isVerboseEnabled, isInfoEnabled]
    split_ifs <;> rfl
  refine ⟨fun _ => ⟨?_, fun _ => hd, fun _ => hvd⟩, ⟨rfl, rfl, rfl⟩, ⟨hvd, hvv⟩⟩
  intro h
  simp [isVerboseEnabled, disable] at h

/-- Witness of C20: from the state with info logging enabled and debug and verbose disabled,
which satisfies "verbose implies debug". -/
theorem flags_verbose_implies_debug_witness :
    (isVerboseEnabled ⟨true, false, false, []⟩ = true →
        isDebugEnabled ⟨true, false, false, []⟩ = true)
    ∧ (isVerboseEnabled (enableVerbose ⟨true, false, false, []⟩) = true →
        isDebugEnabled (enableVerbose ⟨true, false, false, []⟩) = true)
    ∧ isInfoEnabled (disable ⟨true, false, false, []⟩) = false
    ∧ enableVerbose ⟨true, false, false, []⟩
        = ⟨true, true, true,
            ["[INFO] debug logging enabled\n", "[INFO] verbose logging enabled\n"]⟩ :=
  ⟨by decide,
    ((flags_verbose_implies_debug ⟨true, false, false, []⟩).1 (by decide)).2.2,
    (flags_verbose_implies_debug ⟨true, false, false, []⟩).2.1.1,
    by decide⟩

end logging
